import Mathlib

/-!
# LitecAVRTools: the 16-bit Timer/Counter register engine

A shallow embedding of `Timer16Bit.h` / `Timer16Bit.cpp`, followed by the
register-level methods of `Usart.h` / `Usart.cpp` and the functions of
`ExternalInterrupts.cpp`, modelled the same way.

The C++ class `TimerCounter16Bit` holds ten pointers to memory-mapped
registers.  Here the object is the content of those ten registers, and every
method is a function from register contents to register contents (plus the
returned value, when the method returns one).  8-bit registers hold values
below `2^8`, 16-bit registers values below `2^16`; every store reduces the
stored value modulo the register width, as the C assignment does.

The sources are compiled against the device header `<avr/io.h>` of avr-libc,
which is not part of the repository.  The bit numbers it supplies are listed
below with the values of the ATmega2560 header (the device on which `OCR1C` is
defined, so that channel C exists; the ATmega328p header gives the same numbers
for the bits it has).  They place the clock-select field `CSn2:CSn0` in bits
2..0 of `TCCRnB`, the mode bits `WGMn3:WGMn2` in bits 4..3 of `TCCRnB`, the mode
bits `WGMn1:WGMn0` in bits 1..0 of `TCCRnA` and the pin-mode fields of the
channels A, B, C in bits 7..6, 5..4, 3..2 of `TCCRnA`.
-/

namespace LitecAVR

/-! ## Bit numbers of the device header -/

/-- Bit number of `WGMn0` in `TCCRnA`, from the device header `<avr/io.h>`. -/
def WGM10 : Nat := 0
/-- Bit number of `WGMn1` in `TCCRnA`, from the device header `<avr/io.h>`. -/
def WGM11 : Nat := 1
/-- Bit number of `WGMn2` in `TCCRnB`, from the device header `<avr/io.h>`. -/
def WGM12 : Nat := 3
/-- Bit number of `WGMn3` in `TCCRnB`, from the device header `<avr/io.h>`. -/
def WGM13 : Nat := 4
/-- Bit number of `CSn0` in `TCCRnB`, from the device header `<avr/io.h>`. -/
def CS10 : Nat := 0
/-- Bit number of `CSn1` in `TCCRnB`, from the device header `<avr/io.h>`. -/
def CS11 : Nat := 1
/-- Bit number of `CSn2` in `TCCRnB`, from the device header `<avr/io.h>`. -/
def CS12 : Nat := 2
/-- Bit number of `COMnA0` in `TCCRnA`, from the device header `<avr/io.h>`. -/
def COM1A0 : Nat := 6
/-- Bit number of `COMnB0` in `TCCRnA`, from the device header `<avr/io.h>`. -/
def COM1B0 : Nat := 4
/-- Bit number of `COMnC0` in `TCCRnA`, from the device header `<avr/io.h>`. -/
def COM1C0 : Nat := 2
/-- Bit number of `FOCnA` in `TCCRnC`, from the device header `<avr/io.h>`. -/
def FOC1A : Nat := 7
/-- Bit number of `FOCnB` in `TCCRnC`, from the device header `<avr/io.h>`. -/
def FOC1B : Nat := 6
/-- Bit number of `FOCnC` in `TCCRnC`, from the device header `<avr/io.h>`. -/
def FOC1C : Nat := 5

/-! ## Read-modify-write on an 8-bit register -/

/-- The C statement `*reg &= ~mask;` on a `uint8_t` register holding `x`:
bit `i < 8` of the result is bit `i` of `x` and not bit `i` of `mask`. -/
def andNot8 (x mask : Nat) : Nat := (x &&& (0xFF ^^^ mask)) % 256

/-- The C statement `*reg |= v;` on a `uint8_t` register holding `x`. -/
def or8 (x v : Nat) : Nat := (x ||| v) % 256

/-! ## The enumerations of `Timer16Bit.h` -/

/-- The 15 operating modes (`enum Timer16_mode`). -/
inductive Timer16_mode
  | T16_NORMAL
  | T16_PWM_PHI_CORRECT_0XFF
  | T16_PWM_PHI_CORRECT_0X1FF
  | T16_PWM_PHI_CORRECT_0X3FF
  | T16_CTC_OCRXA
  | T16_FAST_PWM_0xFF
  | T16_FAST_PWM_0X1FF
  | T16_FAST_PWM_0X3FF
  | T16_PWM_PHI_F_CORRECT_ICRX
  | T16_PWM_PHI_F_CORRECT_OCRXA
  | T16_PWM_PHI_CORRECT_ICRX
  | T16_PWM_PHI_CORRECT_OCRXA
  | T16_CTC_ICRN
  | T16_FAST_PWM_ICRX
  | T16_FAST_PWM_OCRXA
  deriving DecidableEq, Repr

/-- The enumerator value of a mode: the `WGMn[3..0]` bits. `0x0D` is reserved. -/
def Timer16_mode.val : Timer16_mode → Nat
  | .T16_NORMAL => 0x00
  | .T16_PWM_PHI_CORRECT_0XFF => 0x01
  | .T16_PWM_PHI_CORRECT_0X1FF => 0x02
  | .T16_PWM_PHI_CORRECT_0X3FF => 0x03
  | .T16_CTC_OCRXA => 0x04
  | .T16_FAST_PWM_0xFF => 0x05
  | .T16_FAST_PWM_0X1FF => 0x06
  | .T16_FAST_PWM_0X3FF => 0x07
  | .T16_PWM_PHI_F_CORRECT_ICRX => 0x08
  | .T16_PWM_PHI_F_CORRECT_OCRXA => 0x09
  | .T16_PWM_PHI_CORRECT_ICRX => 0x0A
  | .T16_PWM_PHI_CORRECT_OCRXA => 0x0B
  | .T16_CTC_ICRN => 0x0C
  | .T16_FAST_PWM_ICRX => 0x0E
  | .T16_FAST_PWM_OCRXA => 0x0F

/-- The 8 clock sources (`enum Timer16_ClockSource`). -/
inductive Timer16_ClockSource
  | T16_CLK_OFF
  | T16_PRESC_1
  | T16_PRESC_8
  | T16_PRESC_64
  | T16_PRESC_256
  | T16_PRESC_1024
  | T16_FALLING
  | T16_RISING
  deriving DecidableEq, Repr

/-- The enumerator value of a clock source: the `CSn[2..0]` bits. -/
def Timer16_ClockSource.val : Timer16_ClockSource → Nat
  | .T16_CLK_OFF => 0x00
  | .T16_PRESC_1 => 0x01
  | .T16_PRESC_8 => 0x02
  | .T16_PRESC_64 => 0x03
  | .T16_PRESC_256 => 0x04
  | .T16_PRESC_1024 => 0x05
  | .T16_FALLING => 0x06
  | .T16_RISING => 0x07

/-- The compare channels (`enum Timer16_CompChannel`, with `OCR1C` defined). -/
inductive Timer16_CompChannel
  | T16_COMP_A
  | T16_COMP_B
  | T16_COMP_C
  deriving DecidableEq, Repr

/-- The enumerator value of a compare channel: one flag bit per channel. -/
def Timer16_CompChannel.val : Timer16_CompChannel → Nat
  | .T16_COMP_A => 0x01
  | .T16_COMP_B => 0x02
  | .T16_COMP_C => 0x04

/-- The value `bitOffset` the first `switch` of `setPwmPinMode` assigns for a
channel: the bit number of its field `COMnX1:COMnX0` in `TCCRnA`. -/
def Timer16_CompChannel.bitOffset : Timer16_CompChannel → Nat
  | .T16_COMP_A => COM1A0
  | .T16_COMP_B => COM1B0
  | .T16_COMP_C => COM1C0

/-- The `operator|` of `Timer16_CompChannel`: both operands are cast to
`uint8_t` and OR-ed. -/
def Timer16_CompChannel.or (a b : Nat) : Nat := (a % 256) ||| (b % 256)

/-- The OR, built with `operator|`, of a collection of channel identifiers. -/
def Timer16_CompChannel.orAll : List Timer16_CompChannel → Nat
  | [] => 0
  | c :: cs => Timer16_CompChannel.or c.val (Timer16_CompChannel.orAll cs)

/-- The 6 pin modes (`enum Timer16_PwmPinMode`). -/
inductive Timer16_PwmPinMode
  | T16_PIN_OFF
  | T16_PIN_TOGGLE_ON_MATCH
  | T16_PIN_CLEAR_ON_MATCH
  | T16_PIN_SET_ON_MATCH
  | T16_PIN_PWM_NORMAL
  | T16_PIN_PWM_INVERTED
  deriving DecidableEq, Repr

/-- The enumerator value of a pin mode. -/
def Timer16_PwmPinMode.val : Timer16_PwmPinMode → Nat
  | .T16_PIN_OFF => 0
  | .T16_PIN_TOGGLE_ON_MATCH => 1
  | .T16_PIN_CLEAR_ON_MATCH => 2
  | .T16_PIN_SET_ON_MATCH => 3
  | .T16_PIN_PWM_NORMAL => 4
  | .T16_PIN_PWM_INVERTED => 5

/-- The 5 interrupt sources (`enum Timer16_Interrupts`). -/
inductive Timer16_Interrupts
  | T16_INT_OVERFLOW
  | T16_INT_COMP_MATCH_A
  | T16_INT_COMP_MATCH_B
  | T16_INT_COMP_MATCH_C
  | T16_INT_INPUT_CAPT
  deriving DecidableEq, Repr

/-- The enumerator value of an interrupt source: its bit in `TIMSKn` / `TIFRn`. -/
def Timer16_Interrupts.val : Timer16_Interrupts → Nat
  | .T16_INT_OVERFLOW => 0x01
  | .T16_INT_COMP_MATCH_A => 0x02
  | .T16_INT_COMP_MATCH_B => 0x04
  | .T16_INT_COMP_MATCH_C => 0x08
  | .T16_INT_INPUT_CAPT => 0x20

/-- The `operator|` of `Timer16_Interrupts`: both operands are cast to `uint8_t`
and OR-ed. -/
def Timer16_Interrupts.or (a b : Nat) : Nat := (a % 256) ||| (b % 256)

/-- The OR, built with `operator|`, of a collection of interrupt constants. -/
def Timer16_Interrupts.orAll : List Timer16_Interrupts → Nat
  | [] => 0
  | f :: fs => Timer16_Interrupts.or f.val (Timer16_Interrupts.orAll fs)

/-! ## The register set and the methods of `TimerCounter16Bit` -/

/-- The content of the ten registers a `TimerCounter16Bit` object points to. -/
structure TimerCounter16Bit where
  tccrna : Nat
  tccrnb : Nat
  tccrnc : Nat
  tcntn : Nat
  ocrna : Nat
  ocrnb : Nat
  ocrnc : Nat
  icrn : Nat
  timsk : Nat
  tifr : Nat
  deriving DecidableEq, Repr

namespace TimerCounter16Bit

/-- Every register holds a value of its width: 8 bits for the control, mask and
flag registers, 16 bits for the counter, compare and capture registers. -/
def WF (t : TimerCounter16Bit) : Prop :=
  t.tccrna < 256 ∧ t.tccrnb < 256 ∧ t.tccrnc < 256 ∧ t.tcntn < 65536 ∧
  t.ocrna < 65536 ∧ t.ocrnb < 65536 ∧ t.ocrnc < 65536 ∧ t.icrn < 65536 ∧
  t.timsk < 256 ∧ t.tifr < 256

instance (t : TimerCounter16Bit) : Decidable t.WF := by
  unfold WF; infer_instance

/-- The method `setMode`: four read-modify-write statements, `mode` being the
enumerator value passed. -/
def setMode (t : TimerCounter16Bit) (mode : Nat) : TimerCounter16Bit :=
  let b1 := andNot8 t.tccrnb ((1 <<< WGM13) ||| (1 <<< WGM12))
  let b2 := or8 b1 ((((mode % 256) &&& 0x0C) >>> 2) <<< WGM12)
  let a1 := andNot8 t.tccrna ((1 <<< WGM11) ||| (1 <<< WGM10))
  let a2 := or8 a1 (((mode % 256) &&& 0x03) <<< WGM10)
  { t with tccrnb := b2, tccrna := a2 }

/-- The method `getMode`: the value cast to `Timer16_mode`, a number in `0..15`. -/
def getMode (t : TimerCounter16Bit) : Nat :=
  ((t.tccrna >>> WGM10) &&& 0x03) ||| (((t.tccrnb >>> WGM12) <<< 2) &&& 0x0C)

/-- The method `selectClockSource`, `clkSource` being the enumerator value passed. -/
def selectClockSource (t : TimerCounter16Bit) (clkSource : Nat) : TimerCounter16Bit :=
  let b1 := andNot8 t.tccrnb ((1 <<< CS12) ||| (1 <<< CS11) ||| (1 <<< CS10))
  let b2 := or8 b1 ((clkSource % 256) <<< CS10)
  { t with tccrnb := b2 }

/-- The method `setTopValue`: the registers after the call and the `int8_t`
returned.  The `switch` is over the value `getMode()` returns. -/
def setTopValue (t : TimerCounter16Bit) (topCountValue : Nat) : TimerCounter16Bit × Int :=
  let mode := t.getMode
  if mode = Timer16_mode.T16_CTC_OCRXA.val ∨
      mode = Timer16_mode.T16_PWM_PHI_F_CORRECT_OCRXA.val ∨
      mode = Timer16_mode.T16_PWM_PHI_CORRECT_OCRXA.val ∨
      mode = Timer16_mode.T16_FAST_PWM_OCRXA.val then
    ({ t with ocrna := topCountValue % 65536 }, 0)
  else if mode = Timer16_mode.T16_PWM_PHI_F_CORRECT_ICRX.val ∨
      mode = Timer16_mode.T16_PWM_PHI_CORRECT_ICRX.val ∨
      mode = Timer16_mode.T16_CTC_ICRN.val ∨
      mode = Timer16_mode.T16_FAST_PWM_ICRX.val then
    ({ t with icrn := topCountValue % 65536 }, 0)
  else
    (t, -1)

/-- The method `getTopValue`. -/
def getTopValue (t : TimerCounter16Bit) : Nat :=
  let mode := t.getMode
  if mode = Timer16_mode.T16_CTC_OCRXA.val ∨
      mode = Timer16_mode.T16_PWM_PHI_F_CORRECT_OCRXA.val ∨
      mode = Timer16_mode.T16_PWM_PHI_CORRECT_OCRXA.val ∨
      mode = Timer16_mode.T16_FAST_PWM_OCRXA.val then
    t.ocrna
  else if mode = Timer16_mode.T16_PWM_PHI_F_CORRECT_ICRX.val ∨
      mode = Timer16_mode.T16_PWM_PHI_CORRECT_ICRX.val ∨
      mode = Timer16_mode.T16_CTC_ICRN.val ∨
      mode = Timer16_mode.T16_FAST_PWM_ICRX.val then
    t.icrn
  else if mode = Timer16_mode.T16_PWM_PHI_CORRECT_0XFF.val ∨
      mode = Timer16_mode.T16_FAST_PWM_0xFF.val then
    0x00FF
  else if mode = Timer16_mode.T16_PWM_PHI_CORRECT_0X1FF.val ∨
      mode = Timer16_mode.T16_FAST_PWM_0X1FF.val then
    0x01FF
  else if mode = Timer16_mode.T16_PWM_PHI_CORRECT_0X3FF.val ∨
      mode = Timer16_mode.T16_FAST_PWM_0X3FF.val then
    0x03FF
  else
    0xFFFF

/-- The method `setCompareMatchValue` (with `OCR1C` defined), `channel` being
the enumerator value passed. -/
def setCompareMatchValue (t : TimerCounter16Bit) (channel : Nat) (compareMatchvalue : Nat) :
    TimerCounter16Bit :=
  if channel = Timer16_CompChannel.T16_COMP_A.val then
    { t with ocrna := compareMatchvalue % 65536 }
  else if channel = Timer16_CompChannel.T16_COMP_B.val then
    { t with ocrnb := compareMatchvalue % 65536 }
  else if channel = Timer16_CompChannel.T16_COMP_C.val then
    { t with ocrnc := compareMatchvalue % 65536 }
  else
    t

/-- The method `setPwmPinMode` (with `OCR1C` defined): the first `switch`
chooses `bitOffset`, the second rewrites `TCCRnA`. -/
def setPwmPinMode (t : TimerCounter16Bit) (channel : Nat) (pwmPinMode : Nat) :
    TimerCounter16Bit :=
  let bitOffset :=
    if channel = Timer16_CompChannel.T16_COMP_A.val then COM1A0
    else if channel = Timer16_CompChannel.T16_COMP_B.val then COM1B0
    else if channel = Timer16_CompChannel.T16_COMP_C.val then COM1C0
    else 0
  if pwmPinMode = Timer16_PwmPinMode.T16_PIN_OFF.val then
    { t with tccrna := andNot8 t.tccrna (0x03 <<< bitOffset) }
  else if pwmPinMode = Timer16_PwmPinMode.T16_PIN_TOGGLE_ON_MATCH.val then
    { t with tccrna := or8 (andNot8 t.tccrna (0x03 <<< bitOffset)) (0x01 <<< bitOffset) }
  else if pwmPinMode = Timer16_PwmPinMode.T16_PIN_CLEAR_ON_MATCH.val ∨
      pwmPinMode = Timer16_PwmPinMode.T16_PIN_PWM_NORMAL.val then
    { t with tccrna := or8 (andNot8 t.tccrna (0x03 <<< bitOffset)) (0x02 <<< bitOffset) }
  else if pwmPinMode = Timer16_PwmPinMode.T16_PIN_SET_ON_MATCH.val ∨
      pwmPinMode = Timer16_PwmPinMode.T16_PIN_PWM_INVERTED.val then
    { t with tccrna := or8 t.tccrna (0x03 <<< bitOffset) }
  else
    t

/-- The method `getCompareMatchValue` (with `OCR1C` defined). -/
def getCompareMatchValue (t : TimerCounter16Bit) (channel : Nat) : Nat :=
  if channel = Timer16_CompChannel.T16_COMP_A.val then t.ocrna
  else if channel = Timer16_CompChannel.T16_COMP_B.val then t.ocrnb
  else if channel = Timer16_CompChannel.T16_COMP_C.val then t.ocrnc
  else 0xFFFF

/-- The method `forceOutputCompareMatch`: the local `tccrncValue` starts at 0,
gets one force bit per channel bit set in `channels`, and is stored to
`TCCRnC`. -/
def forceOutputCompareMatch (t : TimerCounter16Bit) (channels : Nat) : TimerCounter16Bit :=
  let v0 := 0
  let v1 := if channels &&& Timer16_CompChannel.T16_COMP_A.val ≠ 0 then
    or8 v0 (1 <<< FOC1A) else v0
  let v2 := if channels &&& Timer16_CompChannel.T16_COMP_B.val ≠ 0 then
    or8 v1 (1 <<< FOC1B) else v1
  let v3 := if channels &&& Timer16_CompChannel.T16_COMP_C.val ≠ 0 then
    or8 v2 (1 <<< FOC1C) else v2
  { t with tccrnc := v3 }

/-- The method `enableInterrupts`: `*m_timsk |= (uint8_t) flags`. -/
def enableInterrupts (t : TimerCounter16Bit) (interruptEnableFlags : Nat) :
    TimerCounter16Bit :=
  { t with timsk := or8 t.timsk (interruptEnableFlags % 256) }

/-- The method `disableInterrupts`: `*m_timsk &= ~((uint8_t) flags)`. -/
def disableInterrupts (t : TimerCounter16Bit) (interruptEnableFlags : Nat) :
    TimerCounter16Bit :=
  { t with timsk := andNot8 t.timsk (interruptEnableFlags % 256) }

/-- The value the method `clearPendingInterruptEvents` stores to `TIFRn`: the
statement `*m_tifr |= (uint8_t) flags` reads the register and stores the OR of
what it read with the flags. -/
def clearPendingInterruptEvents_store (t : TimerCounter16Bit) (interruptEnableFlags : Nat) :
    Nat :=
  or8 t.tifr (interruptEnableFlags % 256)

/-- Modelled from the spec: the interrupt-flag register is write-one-to-clear.
A store of the value `w` clears the pending flags whose bit is 1 in `w` and
keeps the others: the register holds `pending AND NOT w` afterwards.  The
register itself is hardware and has no source in the repository. -/
def writeOneToClear (pending w : Nat) : Nat := andNot8 pending w

/-- The method `clearPendingInterruptEvents`, `tifr` being the pending flags: the
value of `clearPendingInterruptEvents_store` is stored to the write-one-to-clear
register. -/
def clearPendingInterruptEvents (t : TimerCounter16Bit) (interruptEnableFlags : Nat) :
    TimerCounter16Bit :=
  { t with tifr := writeOneToClear t.tifr (t.clearPendingInterruptEvents_store
      interruptEnableFlags) }

end TimerCounter16Bit

/-- The registers after a reset: every register holds zero (normal mode, clock
off, no interrupt enabled). -/
def resetRegs : TimerCounter16Bit :=
  { tccrna := 0, tccrnb := 0, tccrnc := 0, tcntn := 0, ocrna := 0, ocrnb := 0, ocrnc := 0,
    icrn := 0, timsk := 0, tifr := 0 }

/-- A register content with bits set in every field, used to exercise the
methods on a state other than the reset state. -/
def sampleRegs : TimerCounter16Bit :=
  { tccrna := 0xA5, tccrnb := 0xC2, tccrnc := 0, tcntn := 0x0102, ocrna := 0x1234,
    ocrnb := 0x2345, ocrnc := 0x3456, icrn := 0x5678, timsk := 0x2F, tifr := 0x01 }

/-! ## Call sequences -/

/-- One call of the three methods that configure a pin mode, a compare value
or the clock source.  The pin-mode call takes one of the channels A, B, C and
one of the 6 pin modes, the clock call one of the 8 clock sources; the
compare-value call takes any channel value (also an OR of channels) and any
value. -/
inductive TimerOp
  | pwmPinMode (channel : Timer16_CompChannel) (pwmPinMode : Timer16_PwmPinMode)
  | compareMatchValue (channel : Nat) (compareMatchvalue : Nat)
  | clockSource (clkSource : Timer16_ClockSource)

/-- Executes one call on the registers. -/
def TimerOp.run (t : TimerCounter16Bit) : TimerOp → TimerCounter16Bit
  | .pwmPinMode channel p => t.setPwmPinMode channel.val p.val
  | .compareMatchValue channel v => t.setCompareMatchValue channel v
  | .clockSource s => t.selectClockSource s.val

/-- Executes a sequence of calls, first to last. -/
def runOps (t : TimerCounter16Bit) (ops : List TimerOp) : TimerCounter16Bit :=
  ops.foldl TimerOp.run t

/-! ## The USART of `Usart.h` / `Usart.cpp` -/

/-- Bit number of `U2Xn` in `UCSRnA`, from the device header `<avr/io.h>`. -/
def U2X0 : Nat := 1
/-- Bit number of `UDREn` in `UCSRnA`, from the device header `<avr/io.h>`. -/
def UDRE0 : Nat := 5
/-- Bit number of `RXCn` in `UCSRnA`, from the device header `<avr/io.h>`. -/
def RXC0 : Nat := 7
/-- Bit number of `TXENn` in `UCSRnB`, from the device header `<avr/io.h>`. -/
def TXEN0 : Nat := 3
/-- Bit number of `RXENn` in `UCSRnB`, from the device header `<avr/io.h>`. -/
def RXEN0 : Nat := 4
/-- Bit number of `UDRIEn` in `UCSRnB`, from the device header `<avr/io.h>`. -/
def UDRIE0 : Nat := 5
/-- Bit number of `TXCIEn` in `UCSRnB`, from the device header `<avr/io.h>`. -/
def TXCIE0 : Nat := 6
/-- Bit number of `RXCIEn` in `UCSRnB`, from the device header `<avr/io.h>`. -/
def RXCIE0 : Nat := 7

/-- The content of the five registers a `Usart` object points to: three 8-bit
control and status registers, the 16-bit baud-rate register and the 8-bit data
register. -/
structure Usart where
  ucsra : Nat
  ucsrb : Nat
  ucsrc : Nat
  ubrr : Nat
  udr : Nat
  deriving DecidableEq, Repr

namespace Usart

/-- Every register holds a value of its width. -/
def WF (u : Usart) : Prop :=
  u.ucsra < 256 ∧ u.ucsrb < 256 ∧ u.ucsrc < 256 ∧ u.ubrr < 65536 ∧ u.udr < 256

instance (u : Usart) : Decidable u.WF := by
  unfold WF; infer_instance

/-- The method `init`.  `F_CPU` is the build-time macro the file requires, taken
as a parameter.  `baudrate` is a `uint32_t`, so `baudrate * 8` is reduced modulo
`2^32`; the quotient minus one is computed in unsigned 32-bit arithmetic and cast
to `uint16_t` (a wider type for `F_CPU` gives the same low 16 bits); the
increment is the one of the 16-bit register.  A zero divisor is undefined in C
and gives the quotient and remainder of Lean here. -/
def init (F_CPU : Nat) (u : Usart) (baudrate config : Nat) : Usart :=
  let divisor := ((baudrate % 2 ^ 32) * 8) % 2 ^ 32
  let ubrr0 := ((F_CPU / divisor + (2 ^ 32 - 1)) % 2 ^ 32) % 65536
  let ubrr1 := if F_CPU % divisor > divisor / 2 then (ubrr0 + 1) % 65536 else ubrr0
  { u with
    ucsra := (1 <<< U2X0) % 256,
    ucsrb := ((1 <<< RXEN0) ||| (1 <<< TXEN0)) % 256,
    ucsrc := config % 256,
    ubrr := ubrr1 }

/-- The method `enableOrDisableInterrupts`, the three arguments being `uint8_t`
values.  The first statement ANDs the register with the low byte of
`~(rxComplete<<RXCIE0) & ~(txComplete<<TXCIE0) & ~(udrEmpty<<UDRIE0)`, the second
ORs the three shifted arguments in. -/
def enableOrDisableInterrupts (u : Usart) (rxComplete txComplete udrEmpty : Nat) : Usart :=
  let rx := (rxComplete % 256) <<< RXCIE0
  let tx := (txComplete % 256) <<< TXCIE0
  let ud := (udrEmpty % 256) <<< UDRIE0
  let b1 := (u.ucsrb &&& ((0xFF ^^^ rx) &&& (0xFF ^^^ tx) &&& (0xFF ^^^ ud))) % 256
  let b2 := or8 b1 (rx ||| tx ||| ud)
  { u with ucsrb := b2 }

/-- The method `transmitByteNonBlocking`: the registers after the call and the
`int8_t` returned. -/
def transmitByteNonBlocking (u : Usart) (c : Nat) : Usart × Int :=
  if u.ucsra &&& (1 <<< UDRE0) = 0 then (u, -1)
  else ({ u with udr := c % 256 }, 0)

/-- The method `receiveByteNonBlocking`: the `int16_t` returned, the data
register being read as a `uint8_t`. -/
def receiveByteNonBlocking (u : Usart) : Int :=
  if u.ucsra &&& (1 <<< RXC0) = 0 then -1
  else ((u.udr : Nat) : Int)

end Usart

/-- A USART with the receiver holding the byte `0xFF`, the transmit buffer
empty and the receive-complete and data-register-empty interrupts enabled. -/
def sampleUsart : Usart :=
  { ucsra := 0xA2, ucsrb := 0xB8, ucsrc := 0x06, ubrr := 207, udr := 0xFF }

/-- A USART whose status register shows neither a received byte nor an empty
transmit buffer. -/
def busyUsart : Usart :=
  { ucsra := 0x02, ucsrb := 0x18, ucsrc := 0x06, ubrr := 207, udr := 0x41 }

/-! ## The external interrupts of `ExternalInterrupts.h` / `ExternalInterrupts.cpp` -/

/-- The content of the four registers the functions access: the two
sense-control registers `EICRA` and `EICRB` (with `EICRB` defined), the mask
register `EIMSK` and the write-one-to-clear flag register `EIFR`. -/
structure ExtIntRegs where
  eicra : Nat
  eicrb : Nat
  eimsk : Nat
  eifr : Nat
  deriving DecidableEq, Repr

/-- Every register holds an 8-bit value. -/
def ExtIntRegs.WF (r : ExtIntRegs) : Prop :=
  r.eicra < 256 ∧ r.eicrb < 256 ∧ r.eimsk < 256 ∧ r.eifr < 256

instance (r : ExtIntRegs) : Decidable r.WF := by
  unfold ExtIntRegs.WF; infer_instance

/-- The function `setExtIntEventType`.  `EXT_INT_COUNT` is the macro the file
derives from the interrupt vectors of the device header (a number from 1 to 8),
taken as a parameter; both arguments are `uint8_t` values. -/
def setExtIntEventType (EXT_INT_COUNT : Nat) (r : ExtIntRegs)
    (extIntNumber extIntEventType : Nat) : ExtIntRegs :=
  if extIntNumber ≥ EXT_INT_COUNT then r
  else if extIntEventType > 0x03 then r
  else if extIntNumber < 4 then
    let a1 := andNot8 r.eicra (0x03 <<< (extIntNumber * 2))
    let a2 := or8 a1 (extIntEventType <<< (extIntNumber * 2))
    { r with eicra := a2 }
  else if extIntNumber < 8 then
    let n := (extIntNumber - 4) % 256
    let b1 := andNot8 r.eicrb (0x03 <<< (n * 2))
    let b2 := or8 b1 (extIntEventType <<< (n * 2))
    { r with eicrb := b2 }
  else r

/-- The function `enableExtInt`. -/
def enableExtInt (EXT_INT_COUNT : Nat) (r : ExtIntRegs) (extIntNumber : Nat) : ExtIntRegs :=
  if extIntNumber ≥ EXT_INT_COUNT then r
  else { r with eimsk := or8 r.eimsk (0x01 <<< extIntNumber) }

/-- The function `disableExtInt`. -/
def disableExtInt (EXT_INT_COUNT : Nat) (r : ExtIntRegs) (extIntNumber : Nat) : ExtIntRegs :=
  if extIntNumber ≥ EXT_INT_COUNT then r
  else { r with eimsk := andNot8 r.eimsk (0x01 <<< extIntNumber) }

/-- The value the function `clearPendingExtIntEvent` stores to `EIFR`, if it
stores one: the statement `EIFR |= (0x01<<extIntNumber)` reads the register and
stores the OR of what it read with the shifted bit. -/
def clearPendingExtIntEvent_store (EXT_INT_COUNT : Nat) (r : ExtIntRegs)
    (extIntNumber : Nat) : Option Nat :=
  if extIntNumber ≥ EXT_INT_COUNT then none
  else some (or8 r.eifr (0x01 <<< extIntNumber))

/-- The function `clearPendingExtIntEvent`, `eifr` being the pending flags: the
value of `clearPendingExtIntEvent_store`, if any, is stored to the
write-one-to-clear register. -/
def clearPendingExtIntEvent (EXT_INT_COUNT : Nat) (r : ExtIntRegs) (extIntNumber : Nat) :
    ExtIntRegs :=
  match clearPendingExtIntEvent_store EXT_INT_COUNT r extIntNumber with
  | none => r
  | some w => { r with eifr := TimerCounter16Bit.writeOneToClear r.eifr w }

/-- External-interrupt registers with lines 0 and 5 configured, lines 1 and 6
enabled and two flags pending. -/
def sampleExtIntRegs : ExtIntRegs :=
  { eicra := 0x1B, eicrb := 0x8D, eimsk := 0x42, eifr := 0x05 }

/-! ## Register arithmetic used by the proofs -/

set_option maxRecDepth 100000

theorem andNot8_mod (x mask : Nat) : andNot8 (x % 256) mask = andNot8 x mask := by
  unfold andNot8
  apply Nat.eq_of_testBit_eq
  intro i
  have h256 : (256 : Nat) = 2 ^ 8 := by norm_num
  rw [h256]
  simp only [Nat.testBit_mod_two_pow, Nat.testBit_and]
  cases decide (i < 8) <;> simp

theorem or8_mod (x v : Nat) : or8 (x % 256) v = or8 x v := by
  unfold or8
  apply Nat.eq_of_testBit_eq
  intro i
  have h256 : (256 : Nat) = 2 ^ 8 := by norm_num
  rw [h256]
  simp only [Nat.testBit_mod_two_pow, Nat.testBit_or]
  cases decide (i < 8) <;> simp

theorem andNot8_lt (x mask : Nat) : andNot8 x mask < 256 := Nat.mod_lt _ (by decide)

theorem or8_lt (x v : Nat) : or8 x v < 256 := Nat.mod_lt _ (by decide)

theorem Timer16_mode.val_lt (m : Timer16_mode) : m.val < 16 := by
  cases m <;> decide

theorem setMode_low_byte : ∀ a, a < 256 → ∀ mode, mode < 16 →
    (or8 (andNot8 a ((1 <<< WGM11) ||| (1 <<< WGM10))) (((mode % 256) &&& 0x03) <<< WGM10)
        >>> WGM10) &&& 0x03 = mode &&& 0x03 := by
  decide

theorem setMode_high_byte : ∀ b, b < 256 → ∀ mode, mode < 16 →
    (((or8 (andNot8 b ((1 <<< WGM13) ||| (1 <<< WGM12)))
        ((((mode % 256) &&& 0x0C) >>> 2) <<< WGM12)) >>> WGM12) <<< 2) &&& 0x0C
      = mode &&& 0x0C := by
  decide

theorem low_or_high_nibble : ∀ mode, mode < 16 → (mode &&& 0x03) ||| (mode &&& 0x0C) = mode := by
  decide

theorem getMode_setMode_raw (t : TimerCounter16Bit) (mode : Nat) (hm : mode < 16) :
    (t.setMode mode).getMode = mode := by
  simp only [TimerCounter16Bit.getMode, TimerCounter16Bit.setMode]
  rw [← andNot8_mod t.tccrna, ← andNot8_mod t.tccrnb,
    setMode_low_byte _ (Nat.mod_lt _ (by decide)) mode hm,
    setMode_high_byte _ (Nat.mod_lt _ (by decide)) mode hm]
  exact low_or_high_nibble mode hm

theorem setMode_bytes_lt (t : TimerCounter16Bit) (mode : Nat) :
    (t.setMode mode).tccrna < 256 ∧ (t.setMode mode).tccrnb < 256 :=
  ⟨or8_lt _ _, or8_lt _ _⟩

theorem setPwmPinMode_tccrna (t : TimerCounter16Bit) (ha : t.tccrna < 256)
    (ch : Timer16_CompChannel) (p : Timer16_PwmPinMode) :
    (t.setPwmPinMode ch.val p.val).tccrna < 256 ∧
    ((t.setPwmPinMode ch.val p.val).tccrna >>> WGM10) &&& 0x03
      = (t.tccrna >>> WGM10) &&& 0x03 := by
  obtain ⟨a, b, c, n, oa, ob, oc, ic, k, f⟩ := t
  simp only at ha
  cases ch <;> cases p <;>
    simp only [TimerCounter16Bit.setPwmPinMode, Timer16_CompChannel.val, Timer16_PwmPinMode.val,
      reduceIte, Nat.reduceEqDiff, or_self, or_false, false_or, or_true, true_or] <;>
    (revert a; decide)

theorem setPwmPinMode_tccrnb (t : TimerCounter16Bit)
    (ch : Timer16_CompChannel) (p : Timer16_PwmPinMode) :
    (t.setPwmPinMode ch.val p.val).tccrnb = t.tccrnb := by
  cases ch <;> cases p <;> rfl

theorem setCompareMatchValue_control (t : TimerCounter16Bit) (channel : Nat) (v : Nat) :
    (t.setCompareMatchValue channel v).tccrna = t.tccrna ∧
    (t.setCompareMatchValue channel v).tccrnb = t.tccrnb := by
  unfold TimerCounter16Bit.setCompareMatchValue
  split_ifs <;> exact ⟨rfl, rfl⟩

theorem selectClockSource_tccrnb (t : TimerCounter16Bit) (hb : t.tccrnb < 256)
    (s : Timer16_ClockSource) :
    (t.selectClockSource s.val).tccrnb < 256 ∧
    (((t.selectClockSource s.val).tccrnb >>> WGM12) <<< 2) &&& 0x0C
      = ((t.tccrnb >>> WGM12) <<< 2) &&& 0x0C := by
  obtain ⟨a, b, c, n, oa, ob, oc, ic, k, f⟩ := t
  simp only at hb
  cases s <;>
    simp only [TimerCounter16Bit.selectClockSource, Timer16_ClockSource.val] <;>
    (revert b; decide)

theorem TimerOp.run_mode_bits (t : TimerCounter16Bit) (ha : t.tccrna < 256)
    (hb : t.tccrnb < 256) (op : TimerOp) :
    (op.run t).tccrna < 256 ∧ (op.run t).tccrnb < 256 ∧ (op.run t).getMode = t.getMode := by
  cases op with
  | pwmPinMode ch p =>
    have h1 := setPwmPinMode_tccrna t ha ch p
    have h2 := setPwmPinMode_tccrnb t ch p
    refine ⟨h1.1, ?_, ?_⟩
    · show (t.setPwmPinMode ch.val p.val).tccrnb < 256
      rw [h2]; exact hb
    · show (t.setPwmPinMode ch.val p.val).getMode = t.getMode
      unfold TimerCounter16Bit.getMode
      rw [h1.2, h2]
  | compareMatchValue ch v =>
    have h := setCompareMatchValue_control t ch v
    refine ⟨?_, ?_, ?_⟩
    · show (t.setCompareMatchValue ch v).tccrna < 256
      rw [h.1]; exact ha
    · show (t.setCompareMatchValue ch v).tccrnb < 256
      rw [h.2]; exact hb
    · show (t.setCompareMatchValue ch v).getMode = t.getMode
      unfold TimerCounter16Bit.getMode
      rw [h.1, h.2]
  | clockSource s =>
    have h := selectClockSource_tccrnb t hb s
    refine ⟨ha, h.1, ?_⟩
    show (t.selectClockSource s.val).getMode = t.getMode
    unfold TimerCounter16Bit.getMode
    rw [h.2]
    rfl

theorem runOps_mode_bits (ops : List TimerOp) :
    ∀ t : TimerCounter16Bit, t.tccrna < 256 → t.tccrnb < 256 →
      (runOps t ops).getMode = t.getMode := by
  induction ops with
  | nil => intro t _ _; rfl
  | cons op rest ih =>
    intro t ha hb
    have h := TimerOp.run_mode_bits t ha hb op
    show (runOps (op.run t) rest).getMode = t.getMode
    rw [ih (op.run t) h.1 h.2.1, h.2.2]

theorem setMode_other_bits_low : ∀ a, a < 256 → ∀ mode, mode < 16 →
    (or8 (andNot8 a ((1 <<< WGM11) ||| (1 <<< WGM10))) (((mode % 256) &&& 0x03) <<< WGM10))
      &&& 0xFC = a &&& 0xFC := by
  decide

theorem setMode_other_bits_high : ∀ b, b < 256 → ∀ mode, mode < 16 →
    (or8 (andNot8 b ((1 <<< WGM13) ||| (1 <<< WGM12)))
        ((((mode % 256) &&& 0x0C) >>> 2) <<< WGM12)) &&& 0xE7 = b &&& 0xE7 := by
  decide

theorem testBit_of_masked_eq (x y mask i : Nat) (h : x &&& mask = y &&& mask)
    (hi : mask.testBit i = true) : x.testBit i = y.testBit i := by
  have h2 := congrArg (fun z => z.testBit i) h
  simpa [Nat.testBit_and, hi] using h2

theorem testBit_byte_high (x i : Nat) (hx : x < 256) (hi : 8 ≤ i) : x.testBit i = false := by
  apply Nat.testBit_lt_two_pow
  calc x < 2 ^ 8 := by simpa using hx
    _ ≤ 2 ^ i := Nat.pow_le_pow_right (by decide) hi

theorem setMode_code_bits_low : ∀ a, a < 256 → ∀ mode, mode < 16 →
    (or8 (andNot8 a ((1 <<< WGM11) ||| (1 <<< WGM10)))
        (((mode % 256) &&& 0x03) <<< WGM10)).testBit 0 = mode.testBit 0 ∧
    (or8 (andNot8 a ((1 <<< WGM11) ||| (1 <<< WGM10)))
        (((mode % 256) &&& 0x03) <<< WGM10)).testBit 1 = mode.testBit 1 := by
  decide

theorem setMode_code_bits_high : ∀ b, b < 256 → ∀ mode, mode < 16 →
    (or8 (andNot8 b ((1 <<< WGM13) ||| (1 <<< WGM12)))
        ((((mode % 256) &&& 0x0C) >>> 2) <<< WGM12)).testBit 3 = mode.testBit 2 ∧
    (or8 (andNot8 b ((1 <<< WGM13) ||| (1 <<< WGM12)))
        ((((mode % 256) &&& 0x0C) >>> 2) <<< WGM12)).testBit 4 = mode.testBit 3 := by
  decide

/-! ## Mode selection -/

/-- C1: for each of the 15 modes and any content of the registers, `setMode(m)`
followed by `getMode()` returns `m`. -/
theorem getMode_setMode (t : TimerCounter16Bit) (m : Timer16_mode) :
    (t.setMode m.val).getMode = m.val :=
  getMode_setMode_raw t m.val m.val_lt

/-- C2: after `setMode(m)`, any finite sequence of `setPwmPinMode` (channel A, B
or C, any pin mode), `setCompareMatchValue` (any channel, any value) and
`selectClockSource` (any clock source) calls leaves `getMode()` equal to `m`. -/
theorem getMode_setMode_runOps (t : TimerCounter16Bit) (m : Timer16_mode)
    (ops : List TimerOp) :
    (runOps (t.setMode m.val) ops).getMode = m.val := by
  rw [runOps_mode_bits ops (t.setMode m.val) (setMode_bytes_lt t m.val).1
    (setMode_bytes_lt t m.val).2]
  exact getMode_setMode_raw t m.val m.val_lt

/-- C3: `setMode(m)` changes only the bits `WGMn1:WGMn0` of `TCCRnA` and the bits
`WGMn3:WGMn2` of `TCCRnB`: every other bit of the two registers and every other
register is as before the call. -/
theorem setMode_frame (t : TimerCounter16Bit) (h : t.WF) (m : Timer16_mode) :
    (∀ i, i ≠ WGM10 → i ≠ WGM11 →
      (t.setMode m.val).tccrna.testBit i = t.tccrna.testBit i) ∧
    (∀ i, i ≠ WGM12 → i ≠ WGM13 →
      (t.setMode m.val).tccrnb.testBit i = t.tccrnb.testBit i) ∧
    (t.setMode m.val).tccrnc = t.tccrnc ∧ (t.setMode m.val).tcntn = t.tcntn ∧
    (t.setMode m.val).ocrna = t.ocrna ∧ (t.setMode m.val).ocrnb = t.ocrnb ∧
    (t.setMode m.val).ocrnc = t.ocrnc ∧ (t.setMode m.val).icrn = t.icrn ∧
    (t.setMode m.val).timsk = t.timsk ∧ (t.setMode m.val).tifr = t.tifr := by
  refine ⟨?_, ?_, rfl, rfl, rfl, rfl, rfl, rfl, rfl, rfl⟩
  · intro i h0 h1
    by_cases hi : 8 ≤ i
    · rw [testBit_byte_high _ i (setMode_bytes_lt t m.val).1 hi,
        testBit_byte_high _ i h.1 hi]
    · apply testBit_of_masked_eq _ _ 0xFC i
        (setMode_other_bits_low t.tccrna h.1 m.val m.val_lt)
      have hlt : i < 8 := by omega
      simp only [WGM10, WGM11] at h0 h1
      interval_cases i <;> first | rfl | contradiction
  · intro i h0 h1
    by_cases hi : 8 ≤ i
    · rw [testBit_byte_high _ i (setMode_bytes_lt t m.val).2 hi,
        testBit_byte_high _ i h.2.1 hi]
    · apply testBit_of_masked_eq _ _ 0xE7 i
        (setMode_other_bits_high t.tccrnb h.2.1 m.val m.val_lt)
      have hlt : i < 8 := by omega
      simp only [WGM12, WGM13] at h0 h1
      interval_cases i <;> first | rfl | contradiction

/-- A concrete instance of C3: `setMode(T16_FAST_PWM_OCRXA)` on registers whose
control bytes are `0xA5` and `0xC2` keeps bit 7 and bit 2 of `TCCRnA`, bit 6 and
bit 1 of `TCCRnB`, and the mask register. -/
theorem setMode_frame_witness :
    sampleRegs.WF ∧
    (sampleRegs.setMode Timer16_mode.T16_FAST_PWM_OCRXA.val).tccrna.testBit 7
      = sampleRegs.tccrna.testBit 7 ∧
    (sampleRegs.setMode Timer16_mode.T16_FAST_PWM_OCRXA.val).tccrna.testBit 2
      = sampleRegs.tccrna.testBit 2 ∧
    (sampleRegs.setMode Timer16_mode.T16_FAST_PWM_OCRXA.val).tccrnb.testBit 6
      = sampleRegs.tccrnb.testBit 6 ∧
    (sampleRegs.setMode Timer16_mode.T16_FAST_PWM_OCRXA.val).tccrnb.testBit 1
      = sampleRegs.tccrnb.testBit 1 ∧
    (sampleRegs.setMode Timer16_mode.T16_FAST_PWM_OCRXA.val).timsk = sampleRegs.timsk :=
  ⟨by decide,
   (setMode_frame sampleRegs (by decide) Timer16_mode.T16_FAST_PWM_OCRXA).1 7
      (by decide) (by decide),
   (setMode_frame sampleRegs (by decide) Timer16_mode.T16_FAST_PWM_OCRXA).1 2
      (by decide) (by decide),
   (setMode_frame sampleRegs (by decide) Timer16_mode.T16_FAST_PWM_OCRXA).2.1 6
      (by decide) (by decide),
   (setMode_frame sampleRegs (by decide) Timer16_mode.T16_FAST_PWM_OCRXA).2.1 1
      (by decide) (by decide),
   (setMode_frame sampleRegs (by decide)
      Timer16_mode.T16_FAST_PWM_OCRXA).2.2.2.2.2.2.2.2.1⟩

/-- C4, refuted as stated: on reset registers `setMode(T16_CTC_OCRXA)` (code
`0x04`) leaves `TCCRnB = 0x08`, so it is not the case that bits 0-1 of `TCCRnA`
hold bits 0-1 of the mode code and bits 2-3 of `TCCRnB` hold bits 2-3 of it:
bit 2 of `TCCRnB` is 0 and bit 2 of the code is 1. -/
theorem setMode_tccrnb_bits_2_3_counterexample :
    (resetRegs.setMode Timer16_mode.T16_CTC_OCRXA.val).tccrnb = 0x08 ∧
    ¬ ((resetRegs.setMode Timer16_mode.T16_CTC_OCRXA.val).tccrna.testBit 0
          = Timer16_mode.T16_CTC_OCRXA.val.testBit 0 ∧
       (resetRegs.setMode Timer16_mode.T16_CTC_OCRXA.val).tccrna.testBit 1
          = Timer16_mode.T16_CTC_OCRXA.val.testBit 1 ∧
       (resetRegs.setMode Timer16_mode.T16_CTC_OCRXA.val).tccrnb.testBit 2
          = Timer16_mode.T16_CTC_OCRXA.val.testBit 2 ∧
       (resetRegs.setMode Timer16_mode.T16_CTC_OCRXA.val).tccrnb.testBit 3
          = Timer16_mode.T16_CTC_OCRXA.val.testBit 3) := by
  decide

/-- C4, amended: after `setMode(m)` bits 0-1 of `TCCRnA` equal bits 0-1 of the
mode code, and bits 2-3 of the mode code are stored in bits 3-4 of `TCCRnB`
(`WGMn2` and `WGMn3`). -/
theorem setMode_code_bits (t : TimerCounter16Bit) (m : Timer16_mode) :
    (t.setMode m.val).tccrna.testBit 0 = m.val.testBit 0 ∧
    (t.setMode m.val).tccrna.testBit 1 = m.val.testBit 1 ∧
    (t.setMode m.val).tccrnb.testBit 3 = m.val.testBit 2 ∧
    (t.setMode m.val).tccrnb.testBit 4 = m.val.testBit 3 := by
  have hl := setMode_code_bits_low (t.tccrna % 256) (Nat.mod_lt _ (by decide)) m.val m.val_lt
  have hh := setMode_code_bits_high (t.tccrnb % 256) (Nat.mod_lt _ (by decide)) m.val m.val_lt
  rw [andNot8_mod] at hl hh
  exact ⟨hl.1, hl.2, hh.1, hh.2⟩

/-! ## TOP value -/

/-- C5: `setTopValue(v)` returns 0 exactly when the mode read by `getMode()` is
one of the eight modes with a programmable TOP, and returns -1 otherwise. -/
theorem setTopValue_result (t : TimerCounter16Bit) (v : Nat) :
    ((t.setTopValue v).2 = 0 ↔
      t.getMode ∈ [Timer16_mode.T16_CTC_OCRXA.val,
        Timer16_mode.T16_PWM_PHI_F_CORRECT_OCRXA.val,
        Timer16_mode.T16_PWM_PHI_CORRECT_OCRXA.val,
        Timer16_mode.T16_FAST_PWM_OCRXA.val,
        Timer16_mode.T16_PWM_PHI_F_CORRECT_ICRX.val,
        Timer16_mode.T16_PWM_PHI_CORRECT_ICRX.val,
        Timer16_mode.T16_CTC_ICRN.val,
        Timer16_mode.T16_FAST_PWM_ICRX.val]) ∧
    ((t.setTopValue v).2 = 0 ∨ (t.setTopValue v).2 = -1) := by
  unfold TimerCounter16Bit.setTopValue
  simp only [List.mem_cons, List.mem_singleton]
  split_ifs with h1 h2
  · simp only [true_and, true_or, and_true]
    tauto
  · simp only [true_and, true_or, and_true]
    tauto
  · simp only [Int.reduceNeg, Int.neg_eq_zero, one_ne_zero, false_iff, false_or, and_true]
    tauto

/-- C6: in a mode whose TOP is `OCRnA` (codes 0x04, 0x09, 0x0B, 0x0F)
`setTopValue(v)` stores the 16-bit value `v` in `OCRnA` and changes no other
register; in a mode whose TOP is `ICRn` (codes 0x08, 0x0A, 0x0C, 0x0E) it stores
`v` in `ICRn` and changes no other register. -/
theorem setTopValue_writes (t : TimerCounter16Bit) (v : Nat) (hv : v < 65536) :
    (t.getMode ∈ [0x04, 0x09, 0x0B, 0x0F] →
      (t.setTopValue v).1 = { t with ocrna := v }) ∧
    (t.getMode ∈ [0x08, 0x0A, 0x0C, 0x0E] →
      (t.setTopValue v).1 = { t with icrn := v }) := by
  unfold TimerCounter16Bit.setTopValue
  simp only [List.mem_cons, List.mem_singleton, List.not_mem_nil, or_false, Timer16_mode.val]
  constructor
  · intro h
    rw [if_pos h, Nat.mod_eq_of_lt hv]
  · intro h
    have h1 : ¬ (t.getMode = 4 ∨ t.getMode = 9 ∨ t.getMode = 11 ∨ t.getMode = 15) := by omega
    rw [if_neg h1, if_pos h, Nat.mod_eq_of_lt hv]

/-- A concrete instance of C6: TOP value 39999 in CTC mode (TOP in `OCRnA`) and
in fast-PWM mode with TOP in `ICRn`. -/
theorem setTopValue_writes_witness :
    (resetRegs.setMode Timer16_mode.T16_CTC_OCRXA.val).getMode ∈ [0x04, 0x09, 0x0B, 0x0F] ∧
    (resetRegs.setMode Timer16_mode.T16_FAST_PWM_ICRX.val).getMode ∈ [0x08, 0x0A, 0x0C, 0x0E] ∧
    ((resetRegs.setMode Timer16_mode.T16_CTC_OCRXA.val).setTopValue 39999).1
      = { resetRegs.setMode Timer16_mode.T16_CTC_OCRXA.val with ocrna := 39999 } ∧
    ((resetRegs.setMode Timer16_mode.T16_FAST_PWM_ICRX.val).setTopValue 39999).1
      = { resetRegs.setMode Timer16_mode.T16_FAST_PWM_ICRX.val with icrn := 39999 } :=
  ⟨by decide, by decide,
   (setTopValue_writes (resetRegs.setMode Timer16_mode.T16_CTC_OCRXA.val) 39999
      (by decide)).1 (by decide),
   (setTopValue_writes (resetRegs.setMode Timer16_mode.T16_FAST_PWM_ICRX.val) 39999
      (by decide)).2 (by decide)⟩

/-- C7: in a mode with a fixed TOP (`T16_NORMAL` and the six 0xFF / 0x1FF / 0x3FF
PWM modes) `setTopValue(v)` returns -1 and leaves every register as it was. -/
theorem setTopValue_fixed_top (t : TimerCounter16Bit) (v : Nat)
    (h : t.getMode ∈ [Timer16_mode.T16_NORMAL.val,
      Timer16_mode.T16_PWM_PHI_CORRECT_0XFF.val,
      Timer16_mode.T16_PWM_PHI_CORRECT_0X1FF.val,
      Timer16_mode.T16_PWM_PHI_CORRECT_0X3FF.val,
      Timer16_mode.T16_FAST_PWM_0xFF.val,
      Timer16_mode.T16_FAST_PWM_0X1FF.val,
      Timer16_mode.T16_FAST_PWM_0X3FF.val]) :
    t.setTopValue v = (t, -1) := by
  unfold TimerCounter16Bit.setTopValue
  simp only [List.mem_cons, List.mem_singleton, List.not_mem_nil, or_false,
    Timer16_mode.val] at h
  simp only [Timer16_mode.val]
  have h1 : ¬ (t.getMode = 4 ∨ t.getMode = 9 ∨ t.getMode = 11 ∨ t.getMode = 15) := by omega
  have h2 : ¬ (t.getMode = 8 ∨ t.getMode = 10 ∨ t.getMode = 12 ∨ t.getMode = 14) := by omega
  rw [if_neg h1, if_neg h2]

/-- A concrete instance of C7: `setTopValue(39999)` in fast-PWM mode with the
fixed TOP 0x3FF, on registers holding non-zero compare and capture values. -/
theorem setTopValue_fixed_top_witness :
    (sampleRegs.setMode Timer16_mode.T16_FAST_PWM_0X3FF.val).getMode
      = Timer16_mode.T16_FAST_PWM_0X3FF.val ∧
    (sampleRegs.setMode Timer16_mode.T16_FAST_PWM_0X3FF.val).setTopValue 39999
      = (sampleRegs.setMode Timer16_mode.T16_FAST_PWM_0X3FF.val, -1) :=
  ⟨by decide,
   setTopValue_fixed_top (sampleRegs.setMode Timer16_mode.T16_FAST_PWM_0X3FF.val) 39999
     (by decide)⟩

/-- C8: `getTopValue()` returns 0x00FF, 0x01FF, 0x03FF in the two modes with the
respective fixed TOP and 0xFFFF in `T16_NORMAL`, whatever `OCRnA` and `ICRn`
hold. -/
theorem getTopValue_fixed (t : TimerCounter16Bit) (a c : Nat) :
    (t.getMode = Timer16_mode.T16_PWM_PHI_CORRECT_0XFF.val ∨
        t.getMode = Timer16_mode.T16_FAST_PWM_0xFF.val →
      ({ t with ocrna := a, icrn := c } : TimerCounter16Bit).getTopValue = 0x00FF) ∧
    (t.getMode = Timer16_mode.T16_PWM_PHI_CORRECT_0X1FF.val ∨
        t.getMode = Timer16_mode.T16_FAST_PWM_0X1FF.val →
      ({ t with ocrna := a, icrn := c } : TimerCounter16Bit).getTopValue = 0x01FF) ∧
    (t.getMode = Timer16_mode.T16_PWM_PHI_CORRECT_0X3FF.val ∨
        t.getMode = Timer16_mode.T16_FAST_PWM_0X3FF.val →
      ({ t with ocrna := a, icrn := c } : TimerCounter16Bit).getTopValue = 0x03FF) ∧
    (t.getMode = Timer16_mode.T16_NORMAL.val →
      ({ t with ocrna := a, icrn := c } : TimerCounter16Bit).getTopValue = 0xFFFF) := by
  have hm : ({ t with ocrna := a, icrn := c } : TimerCounter16Bit).getMode = t.getMode := rfl
  unfold TimerCounter16Bit.getTopValue
  rw [hm]
  simp only [Timer16_mode.val]
  refine ⟨?_, ?_, ?_, ?_⟩ <;> intro h <;> split_ifs <;> first | rfl | omega

/-- A concrete instance of C8: the four fixed TOP values, read from registers
whose `OCRnA` and `ICRn` hold 0x1234 and 0x5678. -/
theorem getTopValue_fixed_witness :
    ({ resetRegs.setMode Timer16_mode.T16_FAST_PWM_0xFF.val with
        ocrna := 0x1234, icrn := 0x5678 } : TimerCounter16Bit).getTopValue = 0x00FF ∧
    ({ resetRegs.setMode Timer16_mode.T16_PWM_PHI_CORRECT_0X1FF.val with
        ocrna := 0x1234, icrn := 0x5678 } : TimerCounter16Bit).getTopValue = 0x01FF ∧
    ({ resetRegs.setMode Timer16_mode.T16_FAST_PWM_0X3FF.val with
        ocrna := 0x1234, icrn := 0x5678 } : TimerCounter16Bit).getTopValue = 0x03FF ∧
    ({ resetRegs.setMode Timer16_mode.T16_NORMAL.val with
        ocrna := 0x1234, icrn := 0x5678 } : TimerCounter16Bit).getTopValue = 0xFFFF :=
  ⟨(getTopValue_fixed (resetRegs.setMode Timer16_mode.T16_FAST_PWM_0xFF.val)
      0x1234 0x5678).1 (by decide),
   (getTopValue_fixed (resetRegs.setMode Timer16_mode.T16_PWM_PHI_CORRECT_0X1FF.val)
      0x1234 0x5678).2.1 (by decide),
   (getTopValue_fixed (resetRegs.setMode Timer16_mode.T16_FAST_PWM_0X3FF.val)
      0x1234 0x5678).2.2.1 (by decide),
   (getTopValue_fixed (resetRegs.setMode Timer16_mode.T16_NORMAL.val)
      0x1234 0x5678).2.2.2 (by decide)⟩

/-- C9: in each of the eight modes whose TOP is `OCRnA` or `ICRn`, after
`setTopValue(v)` with a 16-bit `v` the call `getTopValue()` returns `v`. -/
theorem getTopValue_setTopValue (t : TimerCounter16Bit) (v : Nat) (hv : v < 65536)
    (h : t.getMode ∈ [Timer16_mode.T16_CTC_OCRXA.val,
      Timer16_mode.T16_PWM_PHI_F_CORRECT_OCRXA.val,
      Timer16_mode.T16_PWM_PHI_CORRECT_OCRXA.val,
      Timer16_mode.T16_FAST_PWM_OCRXA.val,
      Timer16_mode.T16_PWM_PHI_F_CORRECT_ICRX.val,
      Timer16_mode.T16_PWM_PHI_CORRECT_ICRX.val,
      Timer16_mode.T16_CTC_ICRN.val,
      Timer16_mode.T16_FAST_PWM_ICRX.val]) :
    (t.setTopValue v).1.getTopValue = v := by
  simp only [List.mem_cons, List.mem_singleton, List.not_mem_nil, or_false,
    Timer16_mode.val] at h
  unfold TimerCounter16Bit.setTopValue
  simp only [Timer16_mode.val]
  by_cases h1 : t.getMode = 4 ∨ t.getMode = 9 ∨ t.getMode = 11 ∨ t.getMode = 15
  · rw [if_pos h1]
    have hm : ({ t with ocrna := v % 65536 } : TimerCounter16Bit).getMode = t.getMode := rfl
    unfold TimerCounter16Bit.getTopValue
    simp only [Timer16_mode.val]
    rw [hm, if_pos h1]
    exact Nat.mod_eq_of_lt hv
  · have h2 : t.getMode = 8 ∨ t.getMode = 10 ∨ t.getMode = 12 ∨ t.getMode = 14 := by omega
    rw [if_neg h1, if_pos h2]
    have hm : ({ t with icrn := v % 65536 } : TimerCounter16Bit).getMode = t.getMode := rfl
    unfold TimerCounter16Bit.getTopValue
    simp only [Timer16_mode.val]
    rw [hm, if_neg h1, if_pos h2]
    exact Nat.mod_eq_of_lt hv

/-- A concrete instance of C9: TOP value 39999 in phase-correct PWM mode with
TOP in `ICRn`. -/
theorem getTopValue_setTopValue_witness :
    (resetRegs.setMode Timer16_mode.T16_PWM_PHI_CORRECT_ICRX.val).getMode
      = Timer16_mode.T16_PWM_PHI_CORRECT_ICRX.val ∧
    ((resetRegs.setMode Timer16_mode.T16_PWM_PHI_CORRECT_ICRX.val).setTopValue
      39999).1.getTopValue = 39999 :=
  ⟨by decide,
   getTopValue_setTopValue (resetRegs.setMode Timer16_mode.T16_PWM_PHI_CORRECT_ICRX.val)
     39999 (by decide) (by decide)⟩

/-! ## PWM pin mode -/

/-- C10: after `setPwmPinMode(X, p)` the field `COMnX1:COMnX0` of `TCCRnA` is 00
for `T16_PIN_OFF`, 01 for `T16_PIN_TOGGLE_ON_MATCH`, 10 for
`T16_PIN_CLEAR_ON_MATCH` and `T16_PIN_PWM_NORMAL`, 11 for `T16_PIN_SET_ON_MATCH`
and `T16_PIN_PWM_INVERTED`, for each channel A, B, C and any prior `TCCRnA`. -/
theorem setPwmPinMode_field (t : TimerCounter16Bit) (ch : Timer16_CompChannel)
    (p : Timer16_PwmPinMode) :
    ((t.setPwmPinMode ch.val p.val).tccrna >>>
        (match ch with
          | .T16_COMP_A => COM1A0
          | .T16_COMP_B => COM1B0
          | .T16_COMP_C => COM1C0)) &&& 0x03
      = (match p with
          | .T16_PIN_OFF => 0
          | .T16_PIN_TOGGLE_ON_MATCH => 1
          | .T16_PIN_CLEAR_ON_MATCH => 2
          | .T16_PIN_PWM_NORMAL => 2
          | .T16_PIN_SET_ON_MATCH => 3
          | .T16_PIN_PWM_INVERTED => 3) := by
  obtain ⟨a, b, c, n, oa, ob, oc, ic, k, f⟩ := t
  have hx : a % 256 < 256 := Nat.mod_lt _ (by decide)
  cases ch <;> cases p <;>
    simp only [TimerCounter16Bit.setPwmPinMode, Timer16_CompChannel.val, Timer16_PwmPinMode.val,
      reduceIte, Nat.reduceEqDiff, or_self, or_false, false_or, or_true, true_or] <;>
    (first | rw [← andNot8_mod a] | rw [← or8_mod a]) <;>
    generalize a % 256 = x at hx <;>
    (revert x; decide)

theorem testBit_andNot8 (x mask i : Nat) :
    (andNot8 x mask).testBit i = (decide (i < 8) && (x.testBit i && !mask.testBit i)) := by
  unfold andNot8
  have h256 : (256 : Nat) = 2 ^ 8 := by norm_num
  have h255 : (0xFF : Nat) = 2 ^ 8 - 1 := by norm_num
  rw [h256, h255]
  simp only [Nat.testBit_mod_two_pow, Nat.testBit_and, Nat.testBit_xor,
    Nat.testBit_two_pow_sub_one]
  cases decide (i < 8) <;> cases x.testBit i <;> cases mask.testBit i <;> rfl

theorem testBit_or8 (x v i : Nat) :
    (or8 x v).testBit i = (decide (i < 8) && (x.testBit i || v.testBit i)) := by
  unfold or8
  have h256 : (256 : Nat) = 2 ^ 8 := by norm_num
  rw [h256]
  simp only [Nat.testBit_mod_two_pow, Nat.testBit_or]

theorem field_mod (a k : Nat) (hk : k ≤ 6) : ((a % 256) >>> k) &&& 0x03 = (a >>> k) &&& 0x03 := by
  apply Nat.eq_of_testBit_eq
  intro i
  have h256 : (256 : Nat) = 2 ^ 8 := by norm_num
  rw [h256]
  simp only [Nat.testBit_and, Nat.testBit_shiftRight, Nat.testBit_mod_two_pow]
  by_cases hi : i < 2
  · have : k + i < 8 := by omega
    simp [this]
  · have h3 : (3 : Nat).testBit i = false := by
      apply Nat.testBit_lt_two_pow
      calc (3 : Nat) < 2 ^ 2 := by norm_num
        _ ≤ 2 ^ i := Nat.pow_le_pow_right (by decide) (by omega)
    simp [h3]

theorem setPwmPinMode_other_registers (t : TimerCounter16Bit) (channel pwmPinMode : Nat) :
    t.setPwmPinMode channel pwmPinMode
      = { t with tccrna := (t.setPwmPinMode channel pwmPinMode).tccrna } := by
  unfold TimerCounter16Bit.setPwmPinMode
  split_ifs <;> rfl


theorem setPwmPinMode_tccrna_mod (t : TimerCounter16Bit) (ch : Timer16_CompChannel)
    (p : Timer16_PwmPinMode) :
    (t.setPwmPinMode ch.val p.val).tccrna
      = (({ t with tccrna := t.tccrna % 256 } : TimerCounter16Bit).setPwmPinMode
          ch.val p.val).tccrna := by
  cases ch <;> cases p <;>
    simp only [TimerCounter16Bit.setPwmPinMode, Timer16_CompChannel.val,
      Timer16_PwmPinMode.val, reduceIte, Nat.reduceEqDiff, or_self, or_false, false_or,
      or_true, true_or] <;>
    first | rw [andNot8_mod] | rw [or8_mod]

theorem setPwmPinMode_other_fields_byte (t : TimerCounter16Bit) (ha : t.tccrna < 256)
    (ch other : Timer16_CompChannel) (p : Timer16_PwmPinMode) (hne : other ≠ ch) :
    ((t.setPwmPinMode ch.val p.val).tccrna >>>
        other.bitOffset) &&& 0x03
      = (t.tccrna >>>
        other.bitOffset) &&& 0x03 := by
  obtain ⟨a, b, c, n, oa, ob, oc, ic, k, f⟩ := t
  simp only at ha
  cases ch <;> cases other <;> first
    | exact absurd rfl hne
    | (cases p <;>
        simp only [TimerCounter16Bit.setPwmPinMode, Timer16_CompChannel.val,
          Timer16_PwmPinMode.val, reduceIte, Nat.reduceEqDiff, or_self, or_false, false_or,
          or_true, true_or] <;>
        (revert a; decide))

theorem setPwmPinMode_other_fields (t : TimerCounter16Bit)
    (ch other : Timer16_CompChannel) (p : Timer16_PwmPinMode) (hne : other ≠ ch) :
    ((t.setPwmPinMode ch.val p.val).tccrna >>>
        other.bitOffset) &&& 0x03
      = (t.tccrna >>>
        other.bitOffset) &&& 0x03 := by
  rw [setPwmPinMode_tccrna_mod,
    setPwmPinMode_other_fields_byte _ (Nat.mod_lt _ (by decide)) ch other p hne]
  exact field_mod t.tccrna _ (by cases other <;> decide)

theorem setPwmPinMode_wgm_bits (t : TimerCounter16Bit) (ch : Timer16_CompChannel)
    (p : Timer16_PwmPinMode) :
    ((t.setPwmPinMode ch.val p.val).tccrna >>> WGM10) &&& 0x03
      = (t.tccrna >>> WGM10) &&& 0x03 := by
  rw [setPwmPinMode_tccrna_mod,
    (setPwmPinMode_tccrna _ (Nat.mod_lt _ (by decide)) ch p).2]
  exact field_mod t.tccrna _ (by decide)

/-! ## Frame of the pin-mode and clock-source selection -/

/-- C11: `setPwmPinMode(X, p)` leaves the pin-mode field of every other channel,
the bits `WGMn1:WGMn0` of `TCCRnA` and every other register unchanged; and after
any sequence of pin modes written to channel X, the field of another channel
still holds what it held before. -/
theorem setPwmPinMode_frame (t : TimerCounter16Bit) (ch other : Timer16_CompChannel)
    (hne : other ≠ ch) (p : Timer16_PwmPinMode) (ps : List Timer16_PwmPinMode) :
    (((t.setPwmPinMode ch.val p.val).tccrna >>>
        other.bitOffset) &&& 0x03
      = (t.tccrna >>>
        other.bitOffset) &&& 0x03) ∧
    (((t.setPwmPinMode ch.val p.val).tccrna >>> WGM10) &&& 0x03
      = (t.tccrna >>> WGM10) &&& 0x03) ∧
    (t.setPwmPinMode ch.val p.val
      = { t with tccrna := (t.setPwmPinMode ch.val p.val).tccrna }) ∧
    (((ps.foldl (fun s q => s.setPwmPinMode ch.val q.val) t).tccrna >>>
        other.bitOffset) &&& 0x03
      = (t.tccrna >>>
        other.bitOffset) &&& 0x03) := by
  refine ⟨setPwmPinMode_other_fields t ch other p hne, setPwmPinMode_wgm_bits t ch p,
    setPwmPinMode_other_registers t ch.val p.val, ?_⟩
  induction ps generalizing t with
  | nil => rfl
  | cons q qs ih =>
    rw [List.foldl_cons, ih (t.setPwmPinMode ch.val q.val)]
    exact setPwmPinMode_other_fields t ch other q hne

/-- A concrete instance of C11: with channel B's field holding `10` in
`TCCRnA = 0xA5`, writing the six pin modes to channel A one after the other
leaves channel B's field at `10`, and a single write to channel B leaves channel
A's field as it was. -/
theorem setPwmPinMode_frame_witness :
    Timer16_CompChannel.T16_COMP_B ≠ Timer16_CompChannel.T16_COMP_A ∧
    ((([Timer16_PwmPinMode.T16_PIN_OFF, Timer16_PwmPinMode.T16_PIN_TOGGLE_ON_MATCH,
        Timer16_PwmPinMode.T16_PIN_CLEAR_ON_MATCH, Timer16_PwmPinMode.T16_PIN_SET_ON_MATCH,
        Timer16_PwmPinMode.T16_PIN_PWM_NORMAL, Timer16_PwmPinMode.T16_PIN_PWM_INVERTED].foldl
          (fun s q => s.setPwmPinMode Timer16_CompChannel.T16_COMP_A.val q.val)
          sampleRegs).tccrna >>> Timer16_CompChannel.T16_COMP_B.bitOffset) &&& 0x03)
      = (sampleRegs.tccrna >>> Timer16_CompChannel.T16_COMP_B.bitOffset) &&& 0x03 ∧
    (sampleRegs.tccrna >>> Timer16_CompChannel.T16_COMP_B.bitOffset) &&& 0x03 = 2 ∧
    (((sampleRegs.setPwmPinMode Timer16_CompChannel.T16_COMP_B.val
        Timer16_PwmPinMode.T16_PIN_SET_ON_MATCH.val).tccrna >>>
        Timer16_CompChannel.T16_COMP_A.bitOffset) &&& 0x03)
      = (sampleRegs.tccrna >>> Timer16_CompChannel.T16_COMP_A.bitOffset) &&& 0x03 :=
  ⟨by decide,
   (setPwmPinMode_frame sampleRegs Timer16_CompChannel.T16_COMP_A
      Timer16_CompChannel.T16_COMP_B (by decide) Timer16_PwmPinMode.T16_PIN_OFF
      [Timer16_PwmPinMode.T16_PIN_OFF, Timer16_PwmPinMode.T16_PIN_TOGGLE_ON_MATCH,
        Timer16_PwmPinMode.T16_PIN_CLEAR_ON_MATCH, Timer16_PwmPinMode.T16_PIN_SET_ON_MATCH,
        Timer16_PwmPinMode.T16_PIN_PWM_NORMAL,
        Timer16_PwmPinMode.T16_PIN_PWM_INVERTED]).2.2.2,
   by decide,
   (setPwmPinMode_frame sampleRegs Timer16_CompChannel.T16_COMP_B
      Timer16_CompChannel.T16_COMP_A (by decide) Timer16_PwmPinMode.T16_PIN_SET_ON_MATCH
      []).1⟩

theorem selectClockSource_byte (t : TimerCounter16Bit) (hb : t.tccrnb < 256)
    (s : Timer16_ClockSource) :
    ((t.selectClockSource s.val).tccrnb >>> CS10) &&& 0x07 = s.val ∧
    (t.selectClockSource s.val).tccrnb &&& 0xF8 = t.tccrnb &&& 0xF8 := by
  obtain ⟨a, b, c, n, oa, ob, oc, ic, k, f⟩ := t
  simp only at hb
  cases s <;>
    simp only [TimerCounter16Bit.selectClockSource, Timer16_ClockSource.val] <;>
    (revert b; decide)

/-- C12: after `selectClockSource(s)` the field `CSn2:CSn0` (bits 2..0 of
`TCCRnB`) holds the code of `s`, every other bit of `TCCRnB` is as before, and
every other register is unchanged. -/
theorem selectClockSource_field_frame (t : TimerCounter16Bit) (h : t.WF)
    (s : Timer16_ClockSource) :
    (((t.selectClockSource s.val).tccrnb >>> CS10) &&& 0x07 = s.val) ∧
    (∀ i, i ≠ CS10 → i ≠ CS11 → i ≠ CS12 →
      (t.selectClockSource s.val).tccrnb.testBit i = t.tccrnb.testBit i) ∧
    (t.selectClockSource s.val
      = { t with tccrnb := (t.selectClockSource s.val).tccrnb }) := by
  have hb := selectClockSource_byte t h.2.1 s
  refine ⟨hb.1, ?_, rfl⟩
  intro i h0 h1 h2
  by_cases hi : 8 ≤ i
  · have hn : (t.selectClockSource s.val).tccrnb < 256 := or8_lt _ _
    rw [testBit_byte_high _ i hn hi, testBit_byte_high _ i h.2.1 hi]
  · apply testBit_of_masked_eq _ _ 0xF8 i hb.2
    have hlt : i < 8 := by omega
    simp only [CS10, CS11, CS12] at h0 h1 h2
    interval_cases i <;> first | rfl | contradiction

/-- A concrete instance of C12: `selectClockSource(T16_PRESC_8)` on
`TCCRnB = 0xC2` gives the field value 2 and keeps bits 7, 6 and 3. -/
theorem selectClockSource_field_frame_witness :
    sampleRegs.WF ∧
    ((sampleRegs.selectClockSource Timer16_ClockSource.T16_PRESC_8.val).tccrnb >>> CS10)
      &&& 0x07 = Timer16_ClockSource.T16_PRESC_8.val ∧
    (sampleRegs.selectClockSource Timer16_ClockSource.T16_PRESC_8.val).tccrnb.testBit 7
      = sampleRegs.tccrnb.testBit 7 ∧
    (sampleRegs.selectClockSource Timer16_ClockSource.T16_PRESC_8.val).tccrnb.testBit 3
      = sampleRegs.tccrnb.testBit 3 :=
  ⟨by decide,
   (selectClockSource_field_frame sampleRegs (by decide) Timer16_ClockSource.T16_PRESC_8).1,
   (selectClockSource_field_frame sampleRegs (by decide) Timer16_ClockSource.T16_PRESC_8).2.1 7
     (by decide) (by decide) (by decide),
   (selectClockSource_field_frame sampleRegs (by decide) Timer16_ClockSource.T16_PRESC_8).2.1 3
     (by decide) (by decide) (by decide)⟩

/-! ## Interrupt mask -/

theorem Timer16_Interrupts.orAll_lt (fs : List Timer16_Interrupts) :
    Timer16_Interrupts.orAll fs < 256 := by
  cases fs with
  | nil => decide
  | cons f fs =>
    show (f.val % 256) ||| (Timer16_Interrupts.orAll fs % 256) < 2 ^ 8
    exact Nat.or_lt_two_pow (Nat.mod_lt _ (by decide)) (Nat.mod_lt _ (by decide))

theorem or8_of_lt (x v : Nat) (hx : x < 256) (hv : v < 256) : or8 x v = x ||| v := by
  unfold or8
  apply Nat.mod_eq_of_lt
  show x ||| v < 2 ^ 8
  exact Nat.or_lt_two_pow hx hv

theorem testBit_andNot8_of_lt (x mask i : Nat) (hx : x < 256) :
    (andNot8 x mask).testBit i = (x.testBit i && !mask.testBit i) := by
  rw [testBit_andNot8]
  by_cases hi : i < 8
  · simp [hi]
  · rw [testBit_byte_high x i hx (by omega)]
    simp

/-- C13: for `flags` any OR of the five interrupt constants and `M` the prior
content of `TIMSKn`, `enableInterrupts(flags)` leaves `TIMSKn = M OR flags`,
`disableInterrupts(flags)` leaves `TIMSKn = M AND NOT flags` (bit by bit), and
neither changes another register. -/
theorem enable_disable_interrupts_mask (t : TimerCounter16Bit) (h : t.WF)
    (fs : List Timer16_Interrupts) :
    (t.enableInterrupts (Timer16_Interrupts.orAll fs)
      = { t with timsk := t.timsk ||| Timer16_Interrupts.orAll fs }) ∧
    (∀ i, (t.disableInterrupts (Timer16_Interrupts.orAll fs)).timsk.testBit i
      = (t.timsk.testBit i && !(Timer16_Interrupts.orAll fs).testBit i)) ∧
    (t.disableInterrupts (Timer16_Interrupts.orAll fs)
      = { t with timsk := (t.disableInterrupts (Timer16_Interrupts.orAll fs)).timsk }) := by
  have hf := Timer16_Interrupts.orAll_lt fs
  have hm : t.timsk < 256 := h.2.2.2.2.2.2.2.2.1
  refine ⟨?_, ?_, rfl⟩
  · unfold TimerCounter16Bit.enableInterrupts
    rw [Nat.mod_eq_of_lt hf, or8_of_lt _ _ hm hf]
  · intro i
    unfold TimerCounter16Bit.disableInterrupts
    rw [Nat.mod_eq_of_lt hf]
    exact testBit_andNot8_of_lt _ _ i hm

/-- A concrete instance of C13: enabling and disabling the compare-match A and
B interrupts on the mask `0x2F`. -/
theorem enable_disable_interrupts_mask_witness :
    sampleRegs.WF ∧
    (sampleRegs.enableInterrupts (Timer16_Interrupts.orAll
        [Timer16_Interrupts.T16_INT_COMP_MATCH_A, Timer16_Interrupts.T16_INT_COMP_MATCH_B])
      = { sampleRegs with timsk := sampleRegs.timsk ||| (Timer16_Interrupts.orAll
        [Timer16_Interrupts.T16_INT_COMP_MATCH_A, Timer16_Interrupts.T16_INT_COMP_MATCH_B]) }) ∧
    ((sampleRegs.disableInterrupts (Timer16_Interrupts.orAll
        [Timer16_Interrupts.T16_INT_COMP_MATCH_A,
          Timer16_Interrupts.T16_INT_COMP_MATCH_B])).timsk.testBit 1
      = (sampleRegs.timsk.testBit 1 && !(Timer16_Interrupts.orAll
        [Timer16_Interrupts.T16_INT_COMP_MATCH_A,
          Timer16_Interrupts.T16_INT_COMP_MATCH_B]).testBit 1)) :=
  ⟨by decide,
   (enable_disable_interrupts_mask sampleRegs (by decide)
      [Timer16_Interrupts.T16_INT_COMP_MATCH_A, Timer16_Interrupts.T16_INT_COMP_MATCH_B]).1,
   (enable_disable_interrupts_mask sampleRegs (by decide)
      [Timer16_Interrupts.T16_INT_COMP_MATCH_A, Timer16_Interrupts.T16_INT_COMP_MATCH_B]).2.1 1⟩

theorem enable_then_disable_testBit (t : TimerCounter16Bit) (hm : t.timsk < 256)
    (flags : Nat) (hf : flags < 256) (i : Nat) :
    ((t.enableInterrupts flags).disableInterrupts flags).timsk.testBit i
      = (t.timsk.testBit i && !flags.testBit i) := by
  unfold TimerCounter16Bit.disableInterrupts TimerCounter16Bit.enableInterrupts
  simp only
  rw [Nat.mod_eq_of_lt hf, testBit_andNot8, testBit_or8]
  by_cases hi : i < 8
  · simp only [hi, decide_True, Bool.true_and]
    cases t.timsk.testBit i <;> cases flags.testBit i <;> rfl
  · rw [testBit_byte_high t.timsk i hm (by omega)]
    simp [hi]

/-- C14, refuted as stated: with the overflow interrupt already enabled
(`TIMSKn = 0x01`), `enableInterrupts(T16_INT_OVERFLOW)` followed by
`disableInterrupts(T16_INT_OVERFLOW)` leaves `TIMSKn = 0x00`, not the value
`0x01` it had before. -/
theorem enable_then_disable_counterexample :
    ((({ resetRegs with timsk := 0x01 } : TimerCounter16Bit).enableInterrupts
        Timer16_Interrupts.T16_INT_OVERFLOW.val).disableInterrupts
        Timer16_Interrupts.T16_INT_OVERFLOW.val).timsk = 0x00 ∧
    ((({ resetRegs with timsk := 0x01 } : TimerCounter16Bit).enableInterrupts
        Timer16_Interrupts.T16_INT_OVERFLOW.val).disableInterrupts
        Timer16_Interrupts.T16_INT_OVERFLOW.val).timsk
      ≠ ({ resetRegs with timsk := 0x01 } : TimerCounter16Bit).timsk := by
  decide

/-- C14, amended: `enableInterrupts(A)` followed by `disableInterrupts(A)` leaves
the mask register at `M AND NOT A`, `M` being its prior value; that is the value
it had before `enableInterrupts` exactly when no flag of `A` was enabled before
(`M AND A = 0`). -/
theorem enable_then_disable_mask (t : TimerCounter16Bit) (h : t.WF)
    (fs : List Timer16_Interrupts) :
    (∀ i, ((t.enableInterrupts (Timer16_Interrupts.orAll fs)).disableInterrupts
        (Timer16_Interrupts.orAll fs)).timsk.testBit i
      = (t.timsk.testBit i && !(Timer16_Interrupts.orAll fs).testBit i)) ∧
    (((t.enableInterrupts (Timer16_Interrupts.orAll fs)).disableInterrupts
        (Timer16_Interrupts.orAll fs)).timsk = t.timsk
      ↔ t.timsk &&& Timer16_Interrupts.orAll fs = 0) := by
  have hm : t.timsk < 256 := h.2.2.2.2.2.2.2.2.1
  have hb := enable_then_disable_testBit t hm _ (Timer16_Interrupts.orAll_lt fs)
  refine ⟨hb, ?_, ?_⟩
  · intro heq
    apply Nat.eq_of_testBit_eq
    intro i
    have h1 := hb i
    rw [heq] at h1
    rw [Nat.testBit_and, Nat.zero_testBit]
    revert h1
    cases t.timsk.testBit i <;> cases (Timer16_Interrupts.orAll fs).testBit i <;> simp
  · intro hz
    apply Nat.eq_of_testBit_eq
    intro i
    rw [hb i]
    have h1 := congrArg (fun z => z.testBit i) hz
    simp only [Nat.testBit_and, Nat.zero_testBit] at h1
    revert h1
    cases t.timsk.testBit i <;> cases (Timer16_Interrupts.orAll fs).testBit i <;> simp

/-- A concrete instance of C14 as amended: on the mask `0x21`, enabling and then
disabling the compare-match A and B interrupts (none of them enabled before)
gives `0x21` again. -/
theorem enable_then_disable_mask_witness :
    ({ resetRegs with timsk := 0x21 } : TimerCounter16Bit).WF ∧
    ({ resetRegs with timsk := 0x21 } : TimerCounter16Bit).timsk &&&
      Timer16_Interrupts.orAll [Timer16_Interrupts.T16_INT_COMP_MATCH_A,
        Timer16_Interrupts.T16_INT_COMP_MATCH_B] = 0 ∧
    ((({ resetRegs with timsk := 0x21 } : TimerCounter16Bit).enableInterrupts
        (Timer16_Interrupts.orAll [Timer16_Interrupts.T16_INT_COMP_MATCH_A,
          Timer16_Interrupts.T16_INT_COMP_MATCH_B])).disableInterrupts
        (Timer16_Interrupts.orAll [Timer16_Interrupts.T16_INT_COMP_MATCH_A,
          Timer16_Interrupts.T16_INT_COMP_MATCH_B])).timsk
      = ({ resetRegs with timsk := 0x21 } : TimerCounter16Bit).timsk :=
  ⟨by decide, by decide,
   (enable_then_disable_mask { resetRegs with timsk := 0x21 } (by decide)
      [Timer16_Interrupts.T16_INT_COMP_MATCH_A,
        Timer16_Interrupts.T16_INT_COMP_MATCH_B]).2.2 (by decide)⟩

/-! ## Pending interrupt flags -/

/-- C15, evaluated on the code: with the overflow and compare-match A flags
pending (`TIFRn = 0x03`), `clearPendingInterruptEvents(T16_INT_OVERFLOW)` stores
`0x03` and leaves no flag pending, although the compare-match A flag is not in
the argument; and with an empty argument it still clears every pending flag. -/
theorem clearPendingInterruptEvents_clears_all :
    (({ resetRegs with tifr := 0x03 } : TimerCounter16Bit).clearPendingInterruptEvents
        Timer16_Interrupts.T16_INT_OVERFLOW.val).tifr = 0x00 ∧
    (({ resetRegs with tifr := 0x03 } : TimerCounter16Bit).clearPendingInterruptEvents
        Timer16_Interrupts.T16_INT_OVERFLOW.val).tifr.testBit 1 = false ∧
    (({ resetRegs with tifr := 0x03 } : TimerCounter16Bit).clearPendingInterruptEvents
        0).tifr = 0x00 := by
  decide

/-- C16, evaluated on the code: with the compare-match A flag pending
(`TIFRn = 0x02`), `clearPendingInterruptEvents(T16_INT_OVERFLOW)` stores `0x03`
to the flag register, not the argument `0x01`. -/
theorem clearPendingInterruptEvents_store_not_flags :
    ({ resetRegs with tifr := 0x02 } : TimerCounter16Bit).clearPendingInterruptEvents_store
        Timer16_Interrupts.T16_INT_OVERFLOW.val = 0x03 ∧
    ({ resetRegs with tifr := 0x02 } : TimerCounter16Bit).clearPendingInterruptEvents_store
        Timer16_Interrupts.T16_INT_OVERFLOW.val ≠ Timer16_Interrupts.T16_INT_OVERFLOW.val := by
  decide

theorem Timer16_CompChannel.orAll_code (S : List Timer16_CompChannel) :
    Timer16_CompChannel.orAll S
      = (if Timer16_CompChannel.T16_COMP_A ∈ S then 1 else 0) |||
        (if Timer16_CompChannel.T16_COMP_B ∈ S then 2 else 0) |||
        (if Timer16_CompChannel.T16_COMP_C ∈ S then 4 else 0) := by
  induction S with
  | nil => rfl
  | cons c cs ih =>
    unfold Timer16_CompChannel.orAll
    rw [ih]
    by_cases hA : Timer16_CompChannel.T16_COMP_A ∈ cs <;>
    by_cases hB : Timer16_CompChannel.T16_COMP_B ∈ cs <;>
    by_cases hC : Timer16_CompChannel.T16_COMP_C ∈ cs <;>
    cases c <;>
    simp [Timer16_CompChannel.or, Timer16_CompChannel.val, hA, hB, hC]

/-! ## Forced compare match -/

/-- C17: for `S` any collection of the channels A, B, C passed as the OR of their
identifiers, `forceOutputCompareMatch` stores to `TCCRnC` a value whose bit
`FOCnX` is 1 exactly when X is in `S` and whose other bits are 0, whatever
`TCCRnC` held, and changes no other register. -/
theorem forceOutputCompareMatch_bits (t : TimerCounter16Bit) (S : List Timer16_CompChannel) :
    ((t.forceOutputCompareMatch (Timer16_CompChannel.orAll S)).tccrnc.testBit FOC1A
      = decide (Timer16_CompChannel.T16_COMP_A ∈ S)) ∧
    ((t.forceOutputCompareMatch (Timer16_CompChannel.orAll S)).tccrnc.testBit FOC1B
      = decide (Timer16_CompChannel.T16_COMP_B ∈ S)) ∧
    ((t.forceOutputCompareMatch (Timer16_CompChannel.orAll S)).tccrnc.testBit FOC1C
      = decide (Timer16_CompChannel.T16_COMP_C ∈ S)) ∧
    (∀ i, i ≠ FOC1A → i ≠ FOC1B → i ≠ FOC1C →
      (t.forceOutputCompareMatch (Timer16_CompChannel.orAll S)).tccrnc.testBit i = false) ∧
    (t.forceOutputCompareMatch (Timer16_CompChannel.orAll S)
      = { t with tccrnc := (t.forceOutputCompareMatch
          (Timer16_CompChannel.orAll S)).tccrnc }) := by
  have key : ∀ channels, channels < 8 →
      ((t.forceOutputCompareMatch channels).tccrnc.testBit FOC1A = channels.testBit 0 ∧
       (t.forceOutputCompareMatch channels).tccrnc.testBit FOC1B = channels.testBit 1 ∧
       (t.forceOutputCompareMatch channels).tccrnc.testBit FOC1C = channels.testBit 2 ∧
       (t.forceOutputCompareMatch channels).tccrnc &&& 0x1F = 0 &&& 0x1F ∧
       (t.forceOutputCompareMatch channels).tccrnc < 256) := by
    unfold TimerCounter16Bit.forceOutputCompareMatch
    simp only
    decide
  rw [Timer16_CompChannel.orAll_code]
  by_cases hA : Timer16_CompChannel.T16_COMP_A ∈ S <;>
  by_cases hB : Timer16_CompChannel.T16_COMP_B ∈ S <;>
  by_cases hC : Timer16_CompChannel.T16_COMP_C ∈ S <;>
  simp only [hA, hB, hC, if_true, if_false, decide_True, decide_False] <;>
  (refine ⟨(key _ (by decide)).1, (key _ (by decide)).2.1, (key _ (by decide)).2.2.1, ?_, rfl⟩
   intro i h0 h1 h2
   by_cases hi : 8 ≤ i
   · exact testBit_byte_high _ i (key _ (by decide)).2.2.2.2 hi
   · rw [testBit_of_masked_eq _ 0 0x1F i (key _ (by decide)).2.2.2.1, Nat.zero_testBit]
     have hlt : i < 8 := by omega
     simp only [FOC1A, FOC1B, FOC1C] at h0 h1 h2
     interval_cases i <;> first | rfl | contradiction)

theorem getTopValue_of_ocrna_mode (t : TimerCounter16Bit)
    (h : t.getMode = 4 ∨ t.getMode = 9 ∨ t.getMode = 11 ∨ t.getMode = 15) :
    t.getTopValue = t.ocrna := by
  unfold TimerCounter16Bit.getTopValue
  simp only [Timer16_mode.val]
  rw [if_pos h]

theorem selectClockSource_getMode (t : TimerCounter16Bit) (hb : t.tccrnb < 256)
    (s : Timer16_ClockSource) : (t.selectClockSource s.val).getMode = t.getMode := by
  unfold TimerCounter16Bit.getMode
  rw [(selectClockSource_tccrnb t hb s).2]
  rfl

theorem setTopValue_control (t : TimerCounter16Bit) (v : Nat) :
    (t.setTopValue v).1.getMode = t.getMode ∧ (t.setTopValue v).1.tccrnb = t.tccrnb := by
  unfold TimerCounter16Bit.setTopValue
  simp only
  split_ifs <;> exact ⟨rfl, rfl⟩

theorem setTopValue_ocrna (t : TimerCounter16Bit) (v : Nat)
    (h : t.getMode = 4 ∨ t.getMode = 9 ∨ t.getMode = 11 ∨ t.getMode = 15) :
    (t.setTopValue v).1.ocrna = v % 65536 := by
  unfold TimerCounter16Bit.setTopValue
  simp only [Timer16_mode.val]
  rw [if_pos h]

/-! ## The CTC scenario -/

/-- C18: from any register content, `setMode(T16_CTC_OCRXA); setTopValue(39999);
selectClockSource(T16_PRESC_8); enableInterrupts(T16_INT_COMP_MATCH_A |
T16_INT_COMP_MATCH_B)` ends in a state where `getTopValue()` is 39999 and
`getMode()` is `T16_CTC_OCRXA`; the same holds for the order of the CTC example,
with `setCompareMatchValue(T16_COMP_B, 2000)` inserted and the clock selected
last. -/
theorem ctc_scenario (t : TimerCounter16Bit) :
    (((((t.setMode Timer16_mode.T16_CTC_OCRXA.val).setTopValue 39999).1.selectClockSource
        Timer16_ClockSource.T16_PRESC_8.val).enableInterrupts
        (Timer16_Interrupts.or Timer16_Interrupts.T16_INT_COMP_MATCH_A.val
          Timer16_Interrupts.T16_INT_COMP_MATCH_B.val)).getTopValue = 39999) ∧
    (((((t.setMode Timer16_mode.T16_CTC_OCRXA.val).setTopValue 39999).1.selectClockSource
        Timer16_ClockSource.T16_PRESC_8.val).enableInterrupts
        (Timer16_Interrupts.or Timer16_Interrupts.T16_INT_COMP_MATCH_A.val
          Timer16_Interrupts.T16_INT_COMP_MATCH_B.val)).getMode
      = Timer16_mode.T16_CTC_OCRXA.val) ∧
    ((((((t.setMode Timer16_mode.T16_CTC_OCRXA.val).setTopValue 39999).1.setCompareMatchValue
        Timer16_CompChannel.T16_COMP_B.val 2000).enableInterrupts
        (Timer16_Interrupts.or Timer16_Interrupts.T16_INT_COMP_MATCH_A.val
          Timer16_Interrupts.T16_INT_COMP_MATCH_B.val)).selectClockSource
        Timer16_ClockSource.T16_PRESC_8.val).getTopValue = 39999) ∧
    ((((((t.setMode Timer16_mode.T16_CTC_OCRXA.val).setTopValue 39999).1.setCompareMatchValue
        Timer16_CompChannel.T16_COMP_B.val 2000).enableInterrupts
        (Timer16_Interrupts.or Timer16_Interrupts.T16_INT_COMP_MATCH_A.val
          Timer16_Interrupts.T16_INT_COMP_MATCH_B.val)).selectClockSource
        Timer16_ClockSource.T16_PRESC_8.val).getMode
      = Timer16_mode.T16_CTC_OCRXA.val) := by
  have hm : (t.setMode Timer16_mode.T16_CTC_OCRXA.val).getMode = 4 :=
    getMode_setMode_raw t 4 (by decide)
  have hb : (t.setMode Timer16_mode.T16_CTC_OCRXA.val).tccrnb < 256 :=
    (setMode_bytes_lt t _).2
  have hc := setTopValue_control (t.setMode Timer16_mode.T16_CTC_OCRXA.val) 39999
  have hm2 : ((t.setMode Timer16_mode.T16_CTC_OCRXA.val).setTopValue 39999).1.getMode = 4 :=
    hc.1.trans hm
  have hb2 : ((t.setMode Timer16_mode.T16_CTC_OCRXA.val).setTopValue 39999).1.tccrnb < 256 :=
    hc.2 ▸ hb
  have ho2 : ((t.setMode Timer16_mode.T16_CTC_OCRXA.val).setTopValue 39999).1.ocrna = 39999 :=
    setTopValue_ocrna _ 39999 (Or.inl hm)
  -- the first order: clock source, then interrupts
  have hm4 : ((((t.setMode Timer16_mode.T16_CTC_OCRXA.val).setTopValue
      39999).1.selectClockSource Timer16_ClockSource.T16_PRESC_8.val).enableInterrupts
      (Timer16_Interrupts.or Timer16_Interrupts.T16_INT_COMP_MATCH_A.val
        Timer16_Interrupts.T16_INT_COMP_MATCH_B.val)).getMode = 4 :=
    (selectClockSource_getMode _ hb2 Timer16_ClockSource.T16_PRESC_8).trans hm2
  -- the order of the example: compare value B, interrupts, then clock source
  have hm5 : (((((t.setMode Timer16_mode.T16_CTC_OCRXA.val).setTopValue
      39999).1.setCompareMatchValue Timer16_CompChannel.T16_COMP_B.val
      2000).enableInterrupts
      (Timer16_Interrupts.or Timer16_Interrupts.T16_INT_COMP_MATCH_A.val
        Timer16_Interrupts.T16_INT_COMP_MATCH_B.val)).selectClockSource
      Timer16_ClockSource.T16_PRESC_8.val).getMode = 4 :=
    (selectClockSource_getMode _ hb2 Timer16_ClockSource.T16_PRESC_8).trans hm2
  exact ⟨(getTopValue_of_ocrna_mode _ (Or.inl hm4)).trans ho2, hm4,
    (getTopValue_of_ocrna_mode _ (Or.inl hm5)).trans ho2, hm5⟩

/-! ## Compare-match values -/

/-- C19: after `setCompareMatchValue(X, v)` with X one of A, B, C and `v` a 16-bit
value, `getCompareMatchValue(X)` returns `v`, and only the compare register of
channel X has changed: the other compare registers, `ICRn`, `TCNTn` and the
control, mask and flag registers are as before. -/
theorem getCompareMatchValue_setCompareMatchValue (t : TimerCounter16Bit)
    (ch : Timer16_CompChannel) (v : Nat) (hv : v < 65536) :
    ((t.setCompareMatchValue ch.val v).getCompareMatchValue ch.val = v) ∧
    (t.setCompareMatchValue ch.val v
      = (match ch with
          | .T16_COMP_A => { t with ocrna := v }
          | .T16_COMP_B => { t with ocrnb := v }
          | .T16_COMP_C => { t with ocrnc := v })) := by
  cases ch <;>
    simp only [TimerCounter16Bit.setCompareMatchValue, TimerCounter16Bit.getCompareMatchValue,
      Timer16_CompChannel.val, reduceIte, Nat.reduceEqDiff, Nat.mod_eq_of_lt hv, and_self]

/-- A concrete instance of C19: writing 2000 to channel B of the sample
registers. -/
theorem getCompareMatchValue_setCompareMatchValue_witness :
    (2000 : Nat) < 65536 ∧
    (sampleRegs.setCompareMatchValue Timer16_CompChannel.T16_COMP_B.val
      2000).getCompareMatchValue Timer16_CompChannel.T16_COMP_B.val = 2000 ∧
    sampleRegs.setCompareMatchValue Timer16_CompChannel.T16_COMP_B.val 2000
      = { sampleRegs with ocrnb := 2000 } :=
  ⟨by decide,
   (getCompareMatchValue_setCompareMatchValue sampleRegs Timer16_CompChannel.T16_COMP_B 2000
      (by decide)).1,
   (getCompareMatchValue_setCompareMatchValue sampleRegs Timer16_CompChannel.T16_COMP_B 2000
      (by decide)).2⟩

/-- C20: in a mode whose TOP is `OCRnA` (`T16_CTC_OCRXA`,
`T16_PWM_PHI_F_CORRECT_OCRXA`, `T16_PWM_PHI_CORRECT_OCRXA`, `T16_FAST_PWM_OCRXA`)
`getCompareMatchValue(T16_COMP_A)` returns what `getTopValue()` returns, and
after `setCompareMatchValue(T16_COMP_A, v)` with a 16-bit `v`, `getTopValue()`
returns `v`. -/
theorem compareMatchValue_A_is_top (t : TimerCounter16Bit) (v : Nat) (hv : v < 65536)
    (h : t.getMode ∈ [Timer16_mode.T16_CTC_OCRXA.val,
      Timer16_mode.T16_PWM_PHI_F_CORRECT_OCRXA.val,
      Timer16_mode.T16_PWM_PHI_CORRECT_OCRXA.val,
      Timer16_mode.T16_FAST_PWM_OCRXA.val]) :
    t.getCompareMatchValue Timer16_CompChannel.T16_COMP_A.val = t.getTopValue ∧
    (t.setCompareMatchValue Timer16_CompChannel.T16_COMP_A.val v).getTopValue = v := by
  simp only [List.mem_cons, List.mem_singleton, List.not_mem_nil, or_false,
    Timer16_mode.val] at h
  constructor
  · rw [getTopValue_of_ocrna_mode t h]
    rfl
  · have hm : (t.setCompareMatchValue Timer16_CompChannel.T16_COMP_A.val v).getMode
        = t.getMode := rfl
    rw [getTopValue_of_ocrna_mode _ (by rw [hm]; exact h)]
    show v % 65536 = v
    exact Nat.mod_eq_of_lt hv

/-- A concrete instance of C20: fast-PWM mode with TOP in `OCRnA` on the sample
registers. -/
theorem compareMatchValue_A_is_top_witness :
    (sampleRegs.setMode Timer16_mode.T16_FAST_PWM_OCRXA.val).getMode
      = Timer16_mode.T16_FAST_PWM_OCRXA.val ∧
    (sampleRegs.setMode Timer16_mode.T16_FAST_PWM_OCRXA.val).getCompareMatchValue
        Timer16_CompChannel.T16_COMP_A.val
      = (sampleRegs.setMode Timer16_mode.T16_FAST_PWM_OCRXA.val).getTopValue ∧
    ((sampleRegs.setMode Timer16_mode.T16_FAST_PWM_OCRXA.val).setCompareMatchValue
        Timer16_CompChannel.T16_COMP_A.val 39999).getTopValue = 39999 :=
  ⟨by decide,
   (compareMatchValue_A_is_top (sampleRegs.setMode Timer16_mode.T16_FAST_PWM_OCRXA.val) 39999
      (by decide) (by decide)).1,
   (compareMatchValue_A_is_top (sampleRegs.setMode Timer16_mode.T16_FAST_PWM_OCRXA.val) 39999
      (by decide) (by decide)).2⟩

/-! ## USART -/

/-- C21, evaluated on the code: with `UCSRnB = 0xB8` (`RXCIE` and `UDRIE` set),
`enableOrDisableInterrupts(0, 0, 0)` leaves `UCSRnB = 0xB8`: the bits `RXCIE` and
`UDRIE` stay 1 although the arguments are 0. -/
theorem enableOrDisableInterrupts_zero_keeps_enabled :
    (sampleUsart.enableOrDisableInterrupts 0 0 0).ucsrb = 0xB8 ∧
    (sampleUsart.enableOrDisableInterrupts 0 0 0).ucsrb.testBit RXCIE0 = true ∧
    (sampleUsart.enableOrDisableInterrupts 0 0 0).ucsrb.testBit UDRIE0 = true := by
  decide

/-- C22: for `0 < 8*b ≤ F_CPU`, `8*b < 2^32` and `F_CPU/(8*b) ≤ 65536` (the exact
quotient, that is `F_CPU ≤ 65536 * (8*b)`), `init(b, config)` leaves
`UBRRn = floor(F_CPU/(8*b)) - 1`, plus 1 exactly when `F_CPU mod (8*b) > 4*b`,
and then `8*b*(UBRRn+1)` differs from `F_CPU` by at most `4*b`. -/
theorem init_ubrr (F_CPU b config : Nat) (u : Usart)
    (hpos : 0 < 8 * b) (hle : 8 * b ≤ F_CPU) (h32 : 8 * b < 2 ^ 32)
    (hq16 : F_CPU ≤ 65536 * (8 * b)) :
    (Usart.init F_CPU u b config).ubrr
      = F_CPU / (8 * b) - 1 + (if F_CPU % (8 * b) > 4 * b then 1 else 0) ∧
    8 * b * ((Usart.init F_CPU u b config).ubrr + 1) ≤ F_CPU + 4 * b ∧
    F_CPU ≤ 8 * b * ((Usart.init F_CPU u b config).ubrr + 1) + 4 * b := by
  have hb : b % 2 ^ 32 = b := Nat.mod_eq_of_lt (by omega)
  have hd : (b * 8) % 2 ^ 32 = 8 * b := by
    rw [Nat.mul_comm]; exact Nat.mod_eq_of_lt h32
  have hhalf : 8 * b / 2 = 4 * b := by omega
  have hq : 1 ≤ F_CPU / (8 * b) := Nat.div_pos hle hpos
  have hdm := Nat.div_add_mod F_CPU (8 * b)
  have hr : F_CPU % (8 * b) < 8 * b := Nat.mod_lt _ hpos
  have hqle : F_CPU / (8 * b) ≤ 65536 :=
    Nat.div_le_of_le_mul (by rw [Nat.mul_comm]; exact hq16)
  have hfit : F_CPU / (8 * b) - 1 + (if F_CPU % (8 * b) > 4 * b then 1 else 0) ≤ 65535 := by
    by_cases hmax : F_CPU / (8 * b) = 65536
    · rw [hmax] at hdm
      have hr0 : ¬ (F_CPU % (8 * b) > 4 * b) := by omega
      rw [if_neg hr0, hmax]
    · split_ifs <;> omega
  have hu : (Usart.init F_CPU u b config).ubrr
      = F_CPU / (8 * b) - 1 + (if F_CPU % (8 * b) > 4 * b then 1 else 0) := by
    simp only [Usart.init, hb, hd, hhalf]
    split_ifs at hfit ⊢ <;> omega
  refine ⟨hu, ?_, ?_⟩
  · rw [hu]
    split_ifs with hgt
    · have e : F_CPU / (8 * b) - 1 + 1 + 1 = F_CPU / (8 * b) + 1 := by omega
      rw [e, Nat.mul_add, Nat.mul_one]
      omega
    · have e : F_CPU / (8 * b) - 1 + 0 + 1 = F_CPU / (8 * b) := by omega
      rw [e]
      omega
  · rw [hu]
    split_ifs with hgt
    · have e : F_CPU / (8 * b) - 1 + 1 + 1 = F_CPU / (8 * b) + 1 := by omega
      rw [e, Nat.mul_add, Nat.mul_one]
      omega
    · have e : F_CPU / (8 * b) - 1 + 0 + 1 = F_CPU / (8 * b) := by omega
      rw [e]
      omega

/-- A concrete instance of C22: `F_CPU = 16000000` and 9600 baud give
`UBRRn = 207`; and at the largest quotient, `F_CPU = 65536 * 8` with baud rate 1,
`UBRRn = 65535`. -/
theorem init_ubrr_witness :
    (0 < 8 * 9600 ∧ 8 * 9600 ≤ 16000000 ∧ 8 * 9600 < 2 ^ 32 ∧
      16000000 ≤ 65536 * (8 * 9600)) ∧
    (Usart.init 16000000 sampleUsart 9600 0x06).ubrr = 207 ∧
    (Usart.init (65536 * 8) sampleUsart 1 0x06).ubrr = 65535 :=
  ⟨by decide,
   (init_ubrr 16000000 9600 0x06 sampleUsart (by decide) (by decide) (by decide)
      (by decide)).1.trans (by decide),
   (init_ubrr (65536 * 8) 1 0x06 sampleUsart (by decide) (by decide) (by decide)
      (by decide)).1.trans (by decide)⟩

theorem and_one_shiftLeft_eq_zero_iff (x k : Nat) :
    x &&& (1 <<< k) = 0 ↔ x.testBit k = false := by
  rw [Nat.one_shiftLeft]
  constructor
  · intro h
    have h2 := congrArg (fun z => z.testBit k) h
    simpa [Nat.testBit_and, Nat.testBit_two_pow_self] using h2
  · intro h
    apply Nat.eq_of_testBit_eq
    intro i
    rw [Nat.testBit_and, Nat.testBit_two_pow, Nat.zero_testBit]
    by_cases hki : k = i
    · subst hki; simp [h]
    · simp [hki]

/-- C23: `transmitByteNonBlocking(c)` returns 0 and stores the byte `c` in `UDRn`
if the bit `UDRE` of `UCSRnA` is set; otherwise it returns -1 and leaves every
register as it was. -/
theorem transmitByteNonBlocking_result (u : Usart) (c : Nat) (hc : c < 256) :
    (u.ucsra.testBit UDRE0 = true →
      u.transmitByteNonBlocking c = ({ u with udr := c }, 0)) ∧
    (u.ucsra.testBit UDRE0 = false →
      u.transmitByteNonBlocking c = (u, -1)) := by
  unfold Usart.transmitByteNonBlocking
  constructor
  · intro h
    have hne : ¬ (u.ucsra &&& (1 <<< UDRE0) = 0) := by
      rw [and_one_shiftLeft_eq_zero_iff, h]; decide
    rw [if_neg hne, Nat.mod_eq_of_lt hc]
  · intro h
    rw [if_pos ((and_one_shiftLeft_eq_zero_iff _ _).2 h)]

/-- A concrete instance of C23: the byte `0x41` on a USART with an empty
transmit buffer and on one whose buffer is full. -/
theorem transmitByteNonBlocking_result_witness :
    (sampleUsart.ucsra.testBit UDRE0 = true ∧
      sampleUsart.transmitByteNonBlocking 0x41 = ({ sampleUsart with udr := 0x41 }, 0)) ∧
    (busyUsart.ucsra.testBit UDRE0 = false ∧
      busyUsart.transmitByteNonBlocking 0x41 = (busyUsart, -1)) :=
  ⟨⟨by decide,
    (transmitByteNonBlocking_result sampleUsart 0x41 (by decide)).1 (by decide)⟩,
   ⟨by decide,
    (transmitByteNonBlocking_result busyUsart 0x41 (by decide)).2 (by decide)⟩⟩

/-- C24: `receiveByteNonBlocking()` returns -1 exactly when the bit `RXC` of
`UCSRnA` is clear; when `RXC` is set it returns the content of `UDRn`, a value
from 0 to 255, so the byte `0xFF` is returned as 255 and not as -1. -/
theorem receiveByteNonBlocking_result (u : Usart) (h : u.WF) :
    (u.receiveByteNonBlocking = -1 ↔ u.ucsra.testBit RXC0 = false) ∧
    (u.ucsra.testBit RXC0 = true →
      u.receiveByteNonBlocking = (u.udr : Int) ∧
      0 ≤ u.receiveByteNonBlocking ∧ u.receiveByteNonBlocking ≤ 255) := by
  have hu : u.udr < 256 := h.2.2.2.2
  unfold Usart.receiveByteNonBlocking
  by_cases hb : u.ucsra.testBit RXC0 = false
  · rw [if_pos ((and_one_shiftLeft_eq_zero_iff _ _).2 hb)]
    simp [hb]
  · have hne : ¬ (u.ucsra &&& (1 <<< RXC0) = 0) := by
      rw [and_one_shiftLeft_eq_zero_iff]; exact hb
    rw [if_neg hne]
    refine ⟨?_, fun _ => ⟨rfl, by omega, by omega⟩⟩
    constructor
    · intro h1; omega
    · intro h1; exact absurd h1 hb

/-- A concrete instance of C24: the received byte `0xFF` is returned as 255. -/
theorem receiveByteNonBlocking_result_witness :
    sampleUsart.WF ∧ sampleUsart.ucsra.testBit RXC0 = true ∧ sampleUsart.udr = 0xFF ∧
    sampleUsart.receiveByteNonBlocking = 255 ∧ sampleUsart.receiveByteNonBlocking ≠ -1 :=
  ⟨by decide, by decide, rfl,
   ((receiveByteNonBlocking_result sampleUsart (by decide)).2 (by decide)).1,
   by decide⟩

theorem isc_field_written : ∀ a, a < 256 → ∀ n, n < 4 → ∀ t, t < 4 →
    ((or8 (andNot8 a (0x03 <<< (n * 2))) (t <<< (n * 2))) >>> (2 * n)) &&& 0x03 = t := by
  decide

theorem isc_field_kept : ∀ a, a < 256 → ∀ n, n < 4 → ∀ t, t < 4 → ∀ k, k < 4 → k ≠ n →
    ((or8 (andNot8 a (0x03 <<< (n * 2))) (t <<< (n * 2))) >>> (2 * k)) &&& 0x03
      = (a >>> (2 * k)) &&& 0x03 := by
  decide

theorem isc_fields (a n t : Nat) (hn : n < 4) (ht : t < 4) :
    (((or8 (andNot8 a (0x03 <<< (n * 2))) (t <<< (n * 2))) >>> (2 * n)) &&& 0x03 = t) ∧
    (∀ k, k < 4 → k ≠ n →
      ((or8 (andNot8 a (0x03 <<< (n * 2))) (t <<< (n * 2))) >>> (2 * k)) &&& 0x03
        = (a >>> (2 * k)) &&& 0x03) := by
  have hlt : a % 256 < 256 := Nat.mod_lt _ (by decide)
  rw [← andNot8_mod a]
  refine ⟨isc_field_written _ hlt n hn t ht, ?_⟩
  intro k hk hkn
  rw [isc_field_kept _ hlt n hn t ht k hk hkn]
  exact field_mod a _ (by omega)

/-! ## External interrupts -/

/-- C25: for an existing interrupt number `n` (`n < EXT_INT_COUNT ≤ 8`) and an
event type `t` in 0..3, `setExtIntEventType(n, t)` makes the field `ISCn1:ISCn0`
equal to `t` (bits `2n+1:2n` of `EICRA` for `n < 4`, bits `2(n-4)+1:2(n-4)` of
`EICRB` for `4 ≤ n`), keeps the fields of the other lines in that register, and
changes no other register. -/
theorem setExtIntEventType_field (EXT_INT_COUNT n t : Nat) (r : ExtIntRegs)
    (hc : EXT_INT_COUNT ≤ 8) (hn : n < EXT_INT_COUNT) (ht : t ≤ 3) :
    (n < 4 →
      (((setExtIntEventType EXT_INT_COUNT r n t).eicra >>> (2 * n)) &&& 0x03 = t) ∧
      (∀ k, k < 4 → k ≠ n →
        ((setExtIntEventType EXT_INT_COUNT r n t).eicra >>> (2 * k)) &&& 0x03
          = (r.eicra >>> (2 * k)) &&& 0x03) ∧
      (setExtIntEventType EXT_INT_COUNT r n t
        = { r with eicra := (setExtIntEventType EXT_INT_COUNT r n t).eicra })) ∧
    (4 ≤ n →
      (((setExtIntEventType EXT_INT_COUNT r n t).eicrb >>> (2 * (n - 4))) &&& 0x03 = t) ∧
      (∀ k, k < 4 → k ≠ n - 4 →
        ((setExtIntEventType EXT_INT_COUNT r n t).eicrb >>> (2 * k)) &&& 0x03
          = (r.eicrb >>> (2 * k)) &&& 0x03) ∧
      (setExtIntEventType EXT_INT_COUNT r n t
        = { r with eicrb := (setExtIntEventType EXT_INT_COUNT r n t).eicrb })) := by
  have h1 : ¬ (n ≥ EXT_INT_COUNT) := by omega
  have h2 : ¬ (t > 0x03) := by omega
  constructor
  · intro h4
    have e : setExtIntEventType EXT_INT_COUNT r n t
        = { r with eicra := or8 (andNot8 r.eicra (0x03 <<< (n * 2))) (t <<< (n * 2)) } := by
      unfold setExtIntEventType
      rw [if_neg h1, if_neg h2, if_pos h4]
    rw [e]
    exact ⟨(isc_fields r.eicra n t h4 (by omega)).1,
      (isc_fields r.eicra n t h4 (by omega)).2, rfl⟩
  · intro h4
    have h3 : ¬ (n < 4) := by omega
    have h8 : n < 8 := by omega
    have hm : (n - 4) % 256 = n - 4 := Nat.mod_eq_of_lt (by omega)
    have e : setExtIntEventType EXT_INT_COUNT r n t
        = { r with eicrb := (or8 (andNot8 r.eicrb (0x03 <<< ((n - 4) * 2)))
            (t <<< ((n - 4) * 2))) } := by
      unfold setExtIntEventType
      rw [if_neg h1, if_neg h2, if_neg h3, if_pos h8]
      simp only [hm]
    rw [e]
    exact ⟨(isc_fields r.eicrb (n - 4) t (by omega) (by omega)).1,
      (isc_fields r.eicrb (n - 4) t (by omega) (by omega)).2, rfl⟩

/-- A concrete instance of C25 on a device with 8 lines: falling edge (2) for
line 2 in `EICRA`, rising edge (3) for line 6 in `EICRB`. -/
theorem setExtIntEventType_field_witness :
    ((8 : Nat) ≤ 8 ∧ (2 : Nat) < 8 ∧ (6 : Nat) < 8 ∧ (3 : Nat) ≤ 3) ∧
    (((setExtIntEventType 8 sampleExtIntRegs 2 2).eicra >>> (2 * 2)) &&& 0x03 = 2) ∧
    (setExtIntEventType 8 sampleExtIntRegs 2 2).eicra = 0x2B ∧
    (((setExtIntEventType 8 sampleExtIntRegs 6 3).eicrb >>> (2 * (6 - 4))) &&& 0x03 = 3) ∧
    (setExtIntEventType 8 sampleExtIntRegs 6 3).eicrb = 0xBD :=
  ⟨by decide,
   ((setExtIntEventType_field 8 2 2 sampleExtIntRegs (by decide) (by decide)
      (by decide)).1 (by decide)).1,
   by decide,
   ((setExtIntEventType_field 8 6 3 sampleExtIntRegs (by decide) (by decide)
      (by decide)).2 (by decide)).1,
   by decide⟩

/-- C26: for an interrupt number `n ≥ EXT_INT_COUNT` the functions
`setExtIntEventType`, `enableExtInt`, `disableExtInt` and
`clearPendingExtIntEvent` change no register, and for an event type `t > 3`
`setExtIntEventType(n, t)` changes no register whatever `n` is. -/
theorem extInt_guards (EXT_INT_COUNT n t : Nat) (r : ExtIntRegs) :
    (n ≥ EXT_INT_COUNT →
      setExtIntEventType EXT_INT_COUNT r n t = r ∧
      enableExtInt EXT_INT_COUNT r n = r ∧
      disableExtInt EXT_INT_COUNT r n = r ∧
      clearPendingExtIntEvent EXT_INT_COUNT r n = r) ∧
    (t > 3 → setExtIntEventType EXT_INT_COUNT r n t = r) := by
  constructor
  · intro h
    refine ⟨?_, ?_, ?_, ?_⟩
    · unfold setExtIntEventType; rw [if_pos h]
    · unfold enableExtInt; rw [if_pos h]
    · unfold disableExtInt; rw [if_pos h]
    · unfold clearPendingExtIntEvent clearPendingExtIntEvent_store; rw [if_pos h]
  · intro h
    unfold setExtIntEventType
    by_cases h1 : n ≥ EXT_INT_COUNT
    · rw [if_pos h1]
    · rw [if_neg h1, if_pos h]

/-- A concrete instance of C26: line 3 on a device with 2 lines, and event type
4 for line 0. -/
theorem extInt_guards_witness :
    ((3 : Nat) ≥ 2 ∧ (4 : Nat) > 3) ∧
    setExtIntEventType 2 sampleExtIntRegs 3 1 = sampleExtIntRegs ∧
    enableExtInt 2 sampleExtIntRegs 3 = sampleExtIntRegs ∧
    disableExtInt 2 sampleExtIntRegs 3 = sampleExtIntRegs ∧
    clearPendingExtIntEvent 2 sampleExtIntRegs 3 = sampleExtIntRegs ∧
    setExtIntEventType 2 sampleExtIntRegs 0 4 = sampleExtIntRegs :=
  ⟨by decide,
   ((extInt_guards 2 3 1 sampleExtIntRegs).1 (by decide)).1,
   ((extInt_guards 2 3 1 sampleExtIntRegs).1 (by decide)).2.1,
   ((extInt_guards 2 3 1 sampleExtIntRegs).1 (by decide)).2.2.1,
   ((extInt_guards 2 3 1 sampleExtIntRegs).1 (by decide)).2.2.2,
   (extInt_guards 2 0 4 sampleExtIntRegs).2 (by decide)⟩

theorem testBit_or8_one_shiftLeft (x n i : Nat) (hx : x < 256) (hn : n < 8) :
    (or8 x (0x01 <<< n)).testBit i = (x.testBit i || decide (n = i)) := by
  rw [testBit_or8, Nat.one_shiftLeft, Nat.testBit_two_pow]
  by_cases hi : i < 8
  · simp [hi]
  · rw [testBit_byte_high x i hx (by omega)]
    have hne : ¬ (n = i) := by omega
    simp [hi, hne]

theorem testBit_andNot8_one_shiftLeft (x n i : Nat) (hx : x < 256) :
    (andNot8 x (0x01 <<< n)).testBit i = (x.testBit i && !decide (n = i)) := by
  rw [testBit_andNot8_of_lt x _ i hx, Nat.one_shiftLeft, Nat.testBit_two_pow]

/-- C27: for an existing interrupt number `n` (`n < EXT_INT_COUNT ≤ 8`),
`enableExtInt(n)` sets bit `n` of `EIMSK` and `disableExtInt(n)` clears it; each
keeps every other bit of `EIMSK` and the registers `EICRA`, `EICRB`, `EIFR`; and
after `enableExtInt(n); disableExtInt(n)` bit `n` of `EIMSK` is clear. -/
theorem enable_disable_extInt (EXT_INT_COUNT n : Nat) (r : ExtIntRegs) (h : r.WF)
    (hc : EXT_INT_COUNT ≤ 8) (hn : n < EXT_INT_COUNT) :
    ((enableExtInt EXT_INT_COUNT r n).eimsk.testBit n = true ∧
      (∀ i, i ≠ n → (enableExtInt EXT_INT_COUNT r n).eimsk.testBit i = r.eimsk.testBit i) ∧
      enableExtInt EXT_INT_COUNT r n
        = { r with eimsk := (enableExtInt EXT_INT_COUNT r n).eimsk }) ∧
    ((disableExtInt EXT_INT_COUNT r n).eimsk.testBit n = false ∧
      (∀ i, i ≠ n → (disableExtInt EXT_INT_COUNT r n).eimsk.testBit i = r.eimsk.testBit i) ∧
      disableExtInt EXT_INT_COUNT r n
        = { r with eimsk := (disableExtInt EXT_INT_COUNT r n).eimsk }) ∧
    (disableExtInt EXT_INT_COUNT (enableExtInt EXT_INT_COUNT r n) n).eimsk.testBit n
      = false := by
  have h1 : ¬ (n ≥ EXT_INT_COUNT) := by omega
  have hm : r.eimsk < 256 := h.2.2.1
  have hn8 : n < 8 := by omega
  have ee : enableExtInt EXT_INT_COUNT r n = { r with eimsk := or8 r.eimsk (0x01 <<< n) } := by
    unfold enableExtInt; rw [if_neg h1]
  have ed : ∀ s : ExtIntRegs, disableExtInt EXT_INT_COUNT s n
      = { s with eimsk := andNot8 s.eimsk (0x01 <<< n) } := by
    intro s; unfold disableExtInt; rw [if_neg h1]
  refine ⟨⟨?_, ?_, ?_⟩, ⟨?_, ?_, ?_⟩, ?_⟩
  · rw [ee, testBit_or8_one_shiftLeft _ _ _ hm hn8]; simp
  · intro i hi
    have hne : ¬ (n = i) := fun e => hi e.symm
    rw [ee, testBit_or8_one_shiftLeft _ _ _ hm hn8]; simp [hne]
  · rw [ee]
  · rw [ed, testBit_andNot8_one_shiftLeft _ _ _ hm]; simp
  · intro i hi
    have hne : ¬ (n = i) := fun e => hi e.symm
    rw [ed, testBit_andNot8_one_shiftLeft _ _ _ hm]; simp [hne]
  · rw [ed]
  · rw [ed, ee, testBit_andNot8_one_shiftLeft _ _ _ (or8_lt _ _)]; simp

/-- A concrete instance of C27: line 2 on a device with 8 lines and
`EIMSK = 0x42`. -/
theorem enable_disable_extInt_witness :
    (sampleExtIntRegs.WF ∧ (8 : Nat) ≤ 8 ∧ (2 : Nat) < 8) ∧
    (enableExtInt 8 sampleExtIntRegs 2).eimsk.testBit 2 = true ∧
    (enableExtInt 8 sampleExtIntRegs 2).eimsk = 0x46 ∧
    (disableExtInt 8 (enableExtInt 8 sampleExtIntRegs 2) 2).eimsk.testBit 2 = false ∧
    (disableExtInt 8 (enableExtInt 8 sampleExtIntRegs 2) 2).eimsk = 0x42 :=
  ⟨by decide,
   (enable_disable_extInt 8 2 sampleExtIntRegs (by decide) (by decide) (by decide)).1.1,
   by decide,
   (enable_disable_extInt 8 2 sampleExtIntRegs (by decide) (by decide) (by decide)).2.2,
   by decide⟩

/-! ## Behaviour of the timer engine -/

/-- C28: the order of `setMode` and `setTopValue` matters.  On the reset
registers (normal mode, `OCRnA = 0`), `setMode(T16_CTC_OCRXA); setTopValue(39999)`
returns 0 and `getTopValue()` is then 39999, whereas
`setTopValue(39999); setMode(T16_CTC_OCRXA)` returns -1 from `setTopValue` and
`getTopValue()` is then the old content 0 of `OCRnA`. -/
theorem setMode_setTopValue_order :
    resetRegs.getMode = Timer16_mode.T16_NORMAL.val ∧ resetRegs.ocrna = 0 ∧
    ((resetRegs.setMode Timer16_mode.T16_CTC_OCRXA.val).setTopValue 39999).2 = 0 ∧
    ((resetRegs.setMode Timer16_mode.T16_CTC_OCRXA.val).setTopValue 39999).1.getTopValue
      = 39999 ∧
    (resetRegs.setTopValue 39999).2 = -1 ∧
    ((resetRegs.setTopValue 39999).1.setMode Timer16_mode.T16_CTC_OCRXA.val).getTopValue
      = resetRegs.ocrna ∧
    ((resetRegs.setTopValue 39999).1.setMode Timer16_mode.T16_CTC_OCRXA.val).getTopValue
      ≠ 39999 := by
  decide

/-- C29: when the four mode bits hold the reserved pattern `0x0D`,
`getTopValue()` returns `0xFFFF` and `setTopValue(v)` returns -1 and leaves every
register as it was, for every `v`. -/
theorem reserved_mode_top (t : TimerCounter16Bit) (v : Nat) (h : t.getMode = 0x0D) :
    (∀ m : Timer16_mode, m.val ≠ 0x0D) ∧
    t.getTopValue = 0xFFFF ∧ t.setTopValue v = (t, -1) := by
  refine ⟨fun m => by cases m <;> decide, ?_⟩
  unfold TimerCounter16Bit.getTopValue TimerCounter16Bit.setTopValue
  simp only [h, Timer16_mode.val]
  exact ⟨rfl, rfl⟩

/-- A concrete instance of C29: the registers `TCCRnA = 0x01`, `TCCRnB = 0x18`
hold the mode bits `0x0D`. -/
theorem reserved_mode_top_witness :
    ({ sampleRegs with tccrna := 0x01, tccrnb := 0x18 } : TimerCounter16Bit).getMode = 0x0D ∧
    ({ sampleRegs with tccrna := 0x01, tccrnb := 0x18 } : TimerCounter16Bit).getTopValue
      = 0xFFFF ∧
    ({ sampleRegs with tccrna := 0x01, tccrnb := 0x18 } : TimerCounter16Bit).setTopValue 39999
      = (({ sampleRegs with tccrna := 0x01, tccrnb := 0x18 } : TimerCounter16Bit), -1) :=
  ⟨by decide,
   (reserved_mode_top { sampleRegs with tccrna := 0x01, tccrnb := 0x18 } 39999
      (by decide)).2.1,
   (reserved_mode_top { sampleRegs with tccrna := 0x01, tccrnb := 0x18 } 39999
      (by decide)).2.2⟩

/-- C30: for each channel A, B, C and every register content,
`setPwmPinMode(X, T16_PIN_CLEAR_ON_MATCH)` and `setPwmPinMode(X, T16_PIN_PWM_NORMAL)`
give the same registers, and so do `setPwmPinMode(X, T16_PIN_SET_ON_MATCH)` and
`setPwmPinMode(X, T16_PIN_PWM_INVERTED)`. -/
theorem setPwmPinMode_dual_names (t : TimerCounter16Bit) (ch : Timer16_CompChannel) :
    t.setPwmPinMode ch.val Timer16_PwmPinMode.T16_PIN_CLEAR_ON_MATCH.val
      = t.setPwmPinMode ch.val Timer16_PwmPinMode.T16_PIN_PWM_NORMAL.val ∧
    t.setPwmPinMode ch.val Timer16_PwmPinMode.T16_PIN_SET_ON_MATCH.val
      = t.setPwmPinMode ch.val Timer16_PwmPinMode.T16_PIN_PWM_INVERTED.val := by
  cases ch <;> exact ⟨rfl, rfl⟩

theorem setMode_selectClockSource_byte : ∀ b, b < 256 → ∀ mode, mode < 16 → ∀ clk, clk < 8 →
    or8 (andNot8 (or8 (andNot8 b ((1 <<< WGM13) ||| (1 <<< WGM12)))
          ((((mode % 256) &&& 0x0C) >>> 2) <<< WGM12))
        ((1 <<< CS12) ||| (1 <<< CS11) ||| (1 <<< CS10))) ((clk % 256) <<< CS10)
      = or8 (andNot8 (or8 (andNot8 b ((1 <<< CS12) ||| (1 <<< CS11) ||| (1 <<< CS10)))
          ((clk % 256) <<< CS10))
        ((1 <<< WGM13) ||| (1 <<< WGM12))) ((((mode % 256) &&& 0x0C) >>> 2) <<< WGM12) := by
  decide

theorem clockSource_val_lt (s : Timer16_ClockSource) : s.val < 8 := by
  cases s <;> decide

/-! ## Commutation and out-of-range channel arguments -/

/-- C31: `setMode` and `selectClockSource` commute: for every mode, clock source
and register content, `setMode(m); selectClockSource(s)` and
`selectClockSource(s); setMode(m)` end in the same registers. -/
theorem setMode_selectClockSource_comm (t : TimerCounter16Bit) (m : Timer16_mode)
    (s : Timer16_ClockSource) :
    (t.setMode m.val).selectClockSource s.val = (t.selectClockSource s.val).setMode m.val := by
  have hb := setMode_selectClockSource_byte (t.tccrnb % 256) (Nat.mod_lt _ (by decide))
    m.val m.val_lt s.val (clockSource_val_lt s)
  rw [andNot8_mod, andNot8_mod] at hb
  simp only [TimerCounter16Bit.setMode, TimerCounter16Bit.selectClockSource, hb]

theorem setPwmPinMode_default_offset (t : TimerCounter16Bit) (channel pwmPinMode : Nat)
    (hA : channel ≠ Timer16_CompChannel.T16_COMP_A.val)
    (hB : channel ≠ Timer16_CompChannel.T16_COMP_B.val)
    (hC : channel ≠ Timer16_CompChannel.T16_COMP_C.val) :
    t.setPwmPinMode channel pwmPinMode = t.setPwmPinMode 0x03 pwmPinMode := by
  have h1 : ¬ ((3 : Nat) = Timer16_CompChannel.T16_COMP_A.val) := by decide
  have h2 : ¬ ((3 : Nat) = Timer16_CompChannel.T16_COMP_B.val) := by decide
  have h3 : ¬ ((3 : Nat) = Timer16_CompChannel.T16_COMP_C.val) := by decide
  unfold TimerCounter16Bit.setPwmPinMode
  simp only [if_neg hA, if_neg hB, if_neg hC, if_neg h1, if_neg h2, if_neg h3]

theorem setPwmPinMode_offset_zero_field (t : TimerCounter16Bit) (p : Timer16_PwmPinMode) :
    ((t.setPwmPinMode 0x03 p.val).tccrna >>> WGM10) &&& 0x03
      = (match p with
          | .T16_PIN_OFF => 0
          | .T16_PIN_TOGGLE_ON_MATCH => 1
          | .T16_PIN_CLEAR_ON_MATCH => 2
          | .T16_PIN_PWM_NORMAL => 2
          | .T16_PIN_SET_ON_MATCH => 3
          | .T16_PIN_PWM_INVERTED => 3) := by
  obtain ⟨a, b, c, n, oa, ob, oc, ic, k, f⟩ := t
  have hx : a % 256 < 256 := Nat.mod_lt _ (by decide)
  cases p <;>
    simp only [TimerCounter16Bit.setPwmPinMode, Timer16_CompChannel.val, Timer16_PwmPinMode.val,
      reduceIte, Nat.reduceEqDiff, or_self, or_false, false_or, or_true, true_or] <;>
    (first | rw [← andNot8_mod a] | rw [← or8_mod a]) <;>
    generalize a % 256 = x at hx <;>
    (revert x; decide)

/-- C32: a channel argument that is none of `T16_COMP_A`, `T16_COMP_B`,
`T16_COMP_C` makes `setPwmPinMode` use bit offset 0: for every register content
and pin mode the pin-mode code is written to bits 1..0 of `TCCRnA`, the bits
`WGMn1:WGMn0`, and the result is the one the channel value `0x03` gives; on the
reset registers `T16_PIN_TOGGLE_ON_MATCH` then changes `getMode()` from 0 to 1. -/
theorem setPwmPinMode_other_channel_hits_mode (t : TimerCounter16Bit) (channel : Nat)
    (p : Timer16_PwmPinMode)
    (hA : channel ≠ Timer16_CompChannel.T16_COMP_A.val)
    (hB : channel ≠ Timer16_CompChannel.T16_COMP_B.val)
    (hC : channel ≠ Timer16_CompChannel.T16_COMP_C.val) :
    (((t.setPwmPinMode channel p.val).tccrna >>> WGM10) &&& 0x03
      = (match p with
          | .T16_PIN_OFF => 0
          | .T16_PIN_TOGGLE_ON_MATCH => 1
          | .T16_PIN_CLEAR_ON_MATCH => 2
          | .T16_PIN_PWM_NORMAL => 2
          | .T16_PIN_SET_ON_MATCH => 3
          | .T16_PIN_PWM_INVERTED => 3)) ∧
    (t.setPwmPinMode channel p.val
      = t.setPwmPinMode (Timer16_CompChannel.or Timer16_CompChannel.T16_COMP_A.val
          Timer16_CompChannel.T16_COMP_B.val) p.val) ∧
    (resetRegs.getMode = 0 ∧
      (resetRegs.setPwmPinMode channel
        Timer16_PwmPinMode.T16_PIN_TOGGLE_ON_MATCH.val).getMode = 1 ∧
      (resetRegs.setPwmPinMode channel
        Timer16_PwmPinMode.T16_PIN_TOGGLE_ON_MATCH.val).getMode ≠ resetRegs.getMode) := by
  have h3 : Timer16_CompChannel.or Timer16_CompChannel.T16_COMP_A.val
      Timer16_CompChannel.T16_COMP_B.val = 3 := by decide
  rw [h3, setPwmPinMode_default_offset t channel p.val hA hB hC,
    setPwmPinMode_default_offset resetRegs channel _ hA hB hC]
  exact ⟨setPwmPinMode_offset_zero_field t p, rfl, by decide⟩

/-- A concrete instance of C32: the channel argument `T16_COMP_A | T16_COMP_B =
0x03` on the sample registers (mode bits `01` become `10`, so `getMode()` goes
from 1 to 2) and on the reset registers; and the channel argument 0. -/
theorem setPwmPinMode_other_channel_hits_mode_witness :
    (Timer16_CompChannel.or Timer16_CompChannel.T16_COMP_A.val
        Timer16_CompChannel.T16_COMP_B.val = 0x03) ∧
    (((sampleRegs.setPwmPinMode (Timer16_CompChannel.or Timer16_CompChannel.T16_COMP_A.val
        Timer16_CompChannel.T16_COMP_B.val)
        Timer16_PwmPinMode.T16_PIN_PWM_NORMAL.val).tccrna >>> WGM10) &&& 0x03 = 2) ∧
    (sampleRegs.getMode = 1 ∧
      (sampleRegs.setPwmPinMode (Timer16_CompChannel.or Timer16_CompChannel.T16_COMP_A.val
        Timer16_CompChannel.T16_COMP_B.val)
        Timer16_PwmPinMode.T16_PIN_PWM_NORMAL.val).getMode = 2) ∧
    ((resetRegs.setPwmPinMode (Timer16_CompChannel.or Timer16_CompChannel.T16_COMP_A.val
        Timer16_CompChannel.T16_COMP_B.val)
        Timer16_PwmPinMode.T16_PIN_TOGGLE_ON_MATCH.val).getMode ≠ resetRegs.getMode) ∧
    ((resetRegs.setPwmPinMode 0 Timer16_PwmPinMode.T16_PIN_TOGGLE_ON_MATCH.val).getMode
      ≠ resetRegs.getMode) :=
  ⟨by decide,
   (setPwmPinMode_other_channel_hits_mode sampleRegs (Timer16_CompChannel.or
      Timer16_CompChannel.T16_COMP_A.val Timer16_CompChannel.T16_COMP_B.val)
      Timer16_PwmPinMode.T16_PIN_PWM_NORMAL (by decide) (by decide) (by decide)).1,
   by decide,
   (setPwmPinMode_other_channel_hits_mode sampleRegs (Timer16_CompChannel.or
      Timer16_CompChannel.T16_COMP_A.val Timer16_CompChannel.T16_COMP_B.val)
      Timer16_PwmPinMode.T16_PIN_PWM_NORMAL (by decide) (by decide) (by decide)).2.2.2.2,
   (setPwmPinMode_other_channel_hits_mode sampleRegs 0
      Timer16_PwmPinMode.T16_PIN_PWM_NORMAL (by decide) (by decide) (by decide)).2.2.2.2⟩

/-- C33: for a channel argument that is none of `T16_COMP_A`, `T16_COMP_B`,
`T16_COMP_C`, `setCompareMatchValue` changes no register and
`getCompareMatchValue` returns `0xFFFF`, whatever the compare registers hold. -/
theorem compareMatchValue_other_channel (t : TimerCounter16Bit) (channel v : Nat)
    (hA : channel ≠ Timer16_CompChannel.T16_COMP_A.val)
    (hB : channel ≠ Timer16_CompChannel.T16_COMP_B.val)
    (hC : channel ≠ Timer16_CompChannel.T16_COMP_C.val) :
    t.setCompareMatchValue channel v = t ∧ t.getCompareMatchValue channel = 0xFFFF := by
  unfold TimerCounter16Bit.setCompareMatchValue TimerCounter16Bit.getCompareMatchValue
  rw [if_neg hA, if_neg hB, if_neg hC, if_neg hA, if_neg hB, if_neg hC]
  exact ⟨rfl, rfl⟩

/-- A concrete instance of C33: the channel argument `T16_COMP_A | T16_COMP_B` on
the sample registers. -/
theorem compareMatchValue_other_channel_witness :
    (Timer16_CompChannel.or Timer16_CompChannel.T16_COMP_A.val
        Timer16_CompChannel.T16_COMP_B.val = 0x03) ∧
    sampleRegs.setCompareMatchValue (Timer16_CompChannel.or
        Timer16_CompChannel.T16_COMP_A.val Timer16_CompChannel.T16_COMP_B.val) 2000
      = sampleRegs ∧
    sampleRegs.getCompareMatchValue (Timer16_CompChannel.or
        Timer16_CompChannel.T16_COMP_A.val Timer16_CompChannel.T16_COMP_B.val) = 0xFFFF :=
  ⟨by decide,
   (compareMatchValue_other_channel sampleRegs (Timer16_CompChannel.or
      Timer16_CompChannel.T16_COMP_A.val Timer16_CompChannel.T16_COMP_B.val) 2000
      (by decide) (by decide) (by decide)).1,
   (compareMatchValue_other_channel sampleRegs (Timer16_CompChannel.or
      Timer16_CompChannel.T16_COMP_A.val Timer16_CompChannel.T16_COMP_B.val) 2000
      (by decide) (by decide) (by decide)).2⟩

theorem one_shiftLeft_lt_256 (n : Nat) (hn : n < 8) : 0x01 <<< n < 256 := by
  interval_cases n <;> decide

/-- C34: for an existing interrupt number `n` and `P` the prior content of
`EIFR`, `clearPendingExtIntEvent(n)` stores `P OR (1 << n)` to `EIFR`; the flag
register being write-one-to-clear, no flag is pending afterwards, whichever line
`n` names, and no other register changes. -/
theorem clearPendingExtIntEvent_clears_all (EXT_INT_COUNT n : Nat) (r : ExtIntRegs)
    (h : r.WF) (hc : EXT_INT_COUNT ≤ 8) (hn : n < EXT_INT_COUNT) :
    clearPendingExtIntEvent_store EXT_INT_COUNT r n = some (r.eifr ||| (0x01 <<< n)) ∧
    clearPendingExtIntEvent EXT_INT_COUNT r n = { r with eifr := 0 } := by
  have h1 : ¬ (n ≥ EXT_INT_COUNT) := by omega
  have hp : r.eifr < 256 := h.2.2.2
  have hs : clearPendingExtIntEvent_store EXT_INT_COUNT r n
      = some (r.eifr ||| (0x01 <<< n)) := by
    unfold clearPendingExtIntEvent_store
    rw [if_neg h1, or8_of_lt _ _ hp (one_shiftLeft_lt_256 n (by omega))]
  refine ⟨hs, ?_⟩
  have hz : TimerCounter16Bit.writeOneToClear r.eifr (r.eifr ||| (0x01 <<< n)) = 0 := by
    unfold TimerCounter16Bit.writeOneToClear
    apply Nat.eq_of_testBit_eq
    intro i
    rw [testBit_andNot8, Nat.testBit_or, Nat.zero_testBit]
    cases r.eifr.testBit i <;> simp
  unfold clearPendingExtIntEvent
  rw [hs]
  simp only [hz]

/-- A concrete instance of C34: with the flags of lines 0 and 2 pending
(`EIFR = 0x05`), `clearPendingExtIntEvent(2)` stores `0x05`, not `0x04`, and the
flag of line 0 is cleared as well. -/
theorem clearPendingExtIntEvent_clears_all_witness :
    (sampleExtIntRegs.WF ∧ (8 : Nat) ≤ 8 ∧ (2 : Nat) < 8) ∧
    clearPendingExtIntEvent_store 8 sampleExtIntRegs 2
      = some (sampleExtIntRegs.eifr ||| (0x01 <<< 2)) ∧
    clearPendingExtIntEvent_store 8 sampleExtIntRegs 2 = some 0x05 ∧
    clearPendingExtIntEvent_store 8 sampleExtIntRegs 2 ≠ some (0x01 <<< 2) ∧
    clearPendingExtIntEvent 8 sampleExtIntRegs 2 = { sampleExtIntRegs with eifr := 0 } ∧
    (clearPendingExtIntEvent 8 sampleExtIntRegs 2).eifr.testBit 0 = false :=
  ⟨by decide,
   (clearPendingExtIntEvent_clears_all 8 2 sampleExtIntRegs (by decide) (by decide)
      (by decide)).1,
   by decide, by decide,
   (clearPendingExtIntEvent_clears_all 8 2 sampleExtIntRegs (by decide) (by decide)
      (by decide)).2,
   by decide⟩

end LitecAVR
